import Mathlib

/-!
Verification of the vehicle-side controller of the Automatic Bus
Administrative System (source file `Bus(Slave).ino`).

The sketch's global variables become the fields of `BusState`; one pass of
`loop()` becomes `loopStep`, parameterised by a `CycleInput` holding the
sensor readings, the pending serial line, the presented RFID identifier and
a single monotonic clock value `now` (the sketch calls `millis()` several
times per pass; within one pass the readings differ by at most the short
in-pass delays, which never changes any branch taken, so one clock read per
cycle is a faithful abstraction).  Machine integers are modelled as
`Int`/`Nat`: `passengerCount` is a C `int` that stays far below its wrap
bound in any run the claims quantify over, and the `unsigned long`
timestamp subtractions agree with `Nat` subtraction because every stored
timestamp is a past clock value.  Side effects (servo writes, buzzer tone,
`delay()` calls, serial transmissions of the admin line, entry/exit count
events, obstruction reports) are collected in a `CycleOutput`.
-/

set_option maxHeartbeats 1000000

namespace BusSlave

/-! ### Constants (source lines 23-32) -/

def TIMEOUT_MS : Nat := 10000
def GATE_BLOCK_CHECK_DELAY_MS : Nat := 1500
def MAGIC_VALUE : Nat := 0xAFCB
def MAX_REGISTERED_CARDS : Nat := 5
def SEQ_TIMEOUT_MS : Nat := 1000
def IR_DEBOUNCE_MS : Nat := 50
def BUZZER_DURATION_MS : Nat := 3000
def EMERGENCY_TIMEOUT_MS : Nat := 5000

/-! ### Data model -/

/-- One entry of `registeredCards` (source lines 64-70).  The sketch stores a
10-byte `uid` array plus a declared `uidSize` and compares declared sizes
first, then the first `uidSize` bytes; here `uid` is the list of those
`uidSize` meaningful bytes, so list equality performs exactly the same
comparison. -/
structure RegisteredCard where
  uid : List Nat
  name : String
  scanCount : Nat
  deriving Repr, DecidableEq

/-- A card record as persisted in EEPROM (no scan count; source lines 272-276). -/
structure StoredCard where
  uid : List Nat
  name : String
  deriving Repr, DecidableEq

/-- The EEPROM contents: magic marker, card count byte, and card slots. -/
structure EEPROMState where
  magic : Nat
  numCards : Nat
  slots : List StoredCard
  deriving Repr, DecidableEq

/-- The sketch's global variables (source lines 45-61).  Booleans for the two
digital outputs we track: `buzzerOn` is the `digitalWrite` state of the
buzzer pin, `servoPos` the last angle written to the servo (60 = closed,
120 = open).  `lastButtonState` is `true` when the last sampled emergency
button level was HIGH (not pressed). -/
structure BusState where
  hasRotated : Bool
  lastMessageTime : Nat
  passengerCount : Int
  ir1Triggered : Bool
  ir2Triggered : Bool
  lastTriggerTime : Nat
  emergencyPressCount : Nat
  lastScannedName : String
  lastScannedCount : Nat
  overloadCount : Nat
  cards : List RegisteredCard
  buzzerOn : Bool
  buzzerOnTime : Nat
  lastButtonState : Bool
  lastEmergencyTime : Nat
  emergencyMode : Bool
  servoOpen : Bool
  isOverloaded : Bool
  servoPos : Nat
  deriving Repr, DecidableEq

/-- The inputs sampled during one pass of `loop()`: the clock, the raw
emergency-button level (`true` = HIGH = not pressed), an optionally
available serial line, an optionally presented RFID identifier, and the two
IR sensor readings (`true` = reads LOW = beam interrupted). -/
structure CycleInput where
  now : Nat
  buttonHigh : Bool
  serialLine : Option String
  rfidScan : Option (List Nat)
  ir1Low : Bool
  ir2Low : Bool
  deriving Repr, DecidableEq

/-- Observable effects of one pass: whether the confirmation tone fired,
the admin-data lines transmitted (`Serial.println(buffer)` in
`sendAdminData`; the debug echo is prefixed with `Sent to Admin: ` and is
not a `D:` line, so the wire carries exactly the lines recorded here as
snapshot lines), the `delay()` calls issued, counts of entry/exit events,
denied-card events and gate-blocked reports, and every angle written to the
servo. -/
structure CycleOutput where
  toneFired : Bool
  adminLines : List String
  settleDelays : List Nat
  entryEvents : Nat
  exitEvents : Nat
  deniedEvents : Nat
  blockedReports : Nat
  servoWrites : List Nat
  deriving Repr, DecidableEq

def emptyOutput : CycleOutput :=
  { toneFired := false, adminLines := [], settleDelays := [], entryEvents := 0,
    exitEvents := 0, deniedEvents := 0, blockedReports := 0, servoWrites := [] }

/-! ### Helper functions of the sketch -/

/-- Function `updateLCD()` (source lines 392-440): the overload edge latch.  Display
writes are not modelled; the state effects are the `isOverloaded` latch,
the buzzer drive and the `overloadCount` increment. -/
def updateLCD (now : Nat) (s : BusState) : BusState :=
  if 5 < s.passengerCount then
    if s.isOverloaded = false then
      { s with isOverloaded := true, buzzerOn := true, buzzerOnTime := now,
               overloadCount := s.overloadCount + 1 }
    else s
  else
    let s1 := if s.isOverloaded then { s with isOverloaded := false } else s
    { s1 with buzzerOn := false }

/-- Function `handleEmergencyButton()` (source lines 453-478).  Returns the new state
and whether the short confirmation tone fired.  The press edge is LOW with
the previously sampled level HIGH; the timeout branch clears the mode and
refreshes the display via `updateLCD`. -/
def handleEmergencyButton (now : Nat) (buttonHigh : Bool) (s : BusState) :
    BusState × Bool :=
  let edge := !buttonHigh && s.lastButtonState
  let s1 := if edge then
      { s with emergencyMode := true, lastEmergencyTime := now,
               emergencyPressCount := s.emergencyPressCount + 1 }
    else s
  let s2 := if s1.emergencyMode ∧ EMERGENCY_TIMEOUT_MS < now - s1.lastEmergencyTime then
      updateLCD now { s1 with emergencyMode := false }
    else s1
  ({ s2 with lastButtonState := buttonHigh }, edge)

/-- Function `sendAdminData()` (source lines 251-262): builds
`D:passengerCount,emergencyPressCount,overloadCount` and then `strcat`s one
`,name,scanCount` fragment per loaded card, in array order. -/
def sendAdminData (s : BusState) : String :=
  s.cards.foldl (fun acc c => acc ++ ("," ++ c.name ++ "," ++ toString c.scanCount))
    ("D:" ++ toString s.passengerCount ++ "," ++ toString s.emergencyPressCount
      ++ "," ++ toString s.overloadCount)

/-- Function `findCardIndex()` (source lines 336-349): index of the first card whose
declared size and identifier bytes match exactly. -/
def findCardIndex : List RegisteredCard → List Nat → Option Nat
  | [], _ => none
  | c :: rest, uid =>
      if c.uid = uid then some 0
      else (findCardIndex rest uid).map (· + 1)

/-- Increment the scan count of the card at the given index
(`registeredCards[cardIndex].scanCount++`, source line 186). -/
def bumpScan : List RegisteredCard → Nat → List RegisteredCard
  | [], _ => []
  | c :: rest, 0 => { c with scanCount := c.scanCount + 1 } :: rest
  | c :: rest, n + 1 => c :: bumpScan rest n

/-- Function `activateServo()` (source lines 354-359). -/
def activateServo (now : Nat) (s : BusState) : BusState :=
  { s with servoPos := 120, servoOpen := true, lastMessageTime := now }

/-- Substring test used for the heartbeat (`msg.indexOf("Hello from Master")
!= -1`, source line 141). -/
def hasSub (needle : List Char) : List Char → Bool
  | [] => decide (needle = [])
  | c :: t => needle.isPrefixOf (c :: t) || hasSub needle t

def containsHeartbeat (msg : String) : Bool :=
  hasSub "Hello from Master".toList msg.toList

/-! ### The phases of one `loop()` pass, in source order -/

/-- Serial handling (source lines 136-147): any received line refreshes
`lastMessageTime`; a heartbeat line with `hasRotated` clear waits the 6000 ms
settle delay, opens the gate, sets `hasRotated` and transmits the admin
line. -/
def serialPhase (now : Nat) (line : Option String) (s : BusState) (o : CycleOutput) :
    BusState × CycleOutput :=
    match line with
    | none => (s, o)
    | some msg =>
      let s1 := { s with lastMessageTime := now }
      if containsHeartbeat msg && !s1.hasRotated then
        let s2 := { s1 with servoPos := 120, hasRotated := true }
        (s2, { o with settleDelays := o.settleDelays ++ [6000],
                      servoWrites := o.servoWrites ++ [120],
                      adminLines := o.adminLines ++ [sendAdminData s2] })
      else (s1, o)

/-- Bluetooth-open timeout handling (source lines 150-170): after the
heartbeat-triggered open, close only once `TIMEOUT_MS +
GATE_BLOCK_CHECK_DELAY_MS` have elapsed and both IR sensors read HIGH;
otherwise report the blocked gate (without touching `lastMessageTime`). -/
def btTimeoutPhase (now : Nat) (ir1Low ir2Low : Bool) (s : BusState) (o : CycleOutput) :
    BusState × CycleOutput :=
    if s.hasRotated then
      if TIMEOUT_MS < now - s.lastMessageTime then
        if TIMEOUT_MS + GATE_BLOCK_CHECK_DELAY_MS < now - s.lastMessageTime then
          if !ir1Low && !ir2Low then
            (updateLCD now { s with servoPos := 60, hasRotated := false },
             { o with servoWrites := o.servoWrites ++ [60] })
          else (s, { o with blockedReports := o.blockedReports + 1 })
        else (s, o)
      else (s, o)
    else (s, o)

/-- RFID scanning (source lines 172-196), evaluated only while `hasRotated`
is clear: a registered identifier has its scan count incremented, is
remembered as the last scan and opens the gate via `activateServo`; an
unknown identifier is denied without state change. -/
def rfidPhase (now : Nat) (scan : Option (List Nat)) (s : BusState) (o : CycleOutput) :
    BusState × CycleOutput :=
    if s.hasRotated then (s, o)
    else
      match scan with
      | none => (s, o)
      | some uid =>
        match findCardIndex s.cards uid with
        | some idx =>
          match s.cards[idx]? with
          | some c =>
            let s1 := { s with cards := bumpScan s.cards idx,
                               lastScannedName := c.name,
                               lastScannedCount := c.scanCount + 1 }
            (activateServo now s1, { o with servoWrites := o.servoWrites ++ [120] })
          | none => (s, o)
        | none => (s, { o with deniedEvents := o.deniedEvents + 1 })

/-- Entry-sequence arming (source lines 203-206): sensor 1 fires with no
sequence armed. -/
def irArm1 (now : Nat) (r1Low : Bool) (s : BusState) : BusState :=
  if r1Low && !s.ir1Triggered && !s.ir2Triggered then
    { s with ir1Triggered := true, lastTriggerTime := now }
  else s

/-- Entry-sequence completion (source lines 207-214): sensor 2 fires within
the window while the entry sequence is armed — count the entry, refresh the
display (which drives the overload latch) and reset the sequence. -/
def irEntry (now : Nat) (r2Low : Bool) (s : BusState) (o : CycleOutput) :
    BusState × CycleOutput :=
  if s.ir1Triggered && r2Low && decide (now - s.lastTriggerTime < SEQ_TIMEOUT_MS) then
    let s1 := updateLCD now { s with passengerCount := s.passengerCount + 1 }
    ({ s1 with ir1Triggered := false, ir2Triggered := false },
     { o with entryEvents := o.entryEvents + 1,
              settleDelays := o.settleDelays ++ [IR_DEBOUNCE_MS] })
  else (s, o)

/-- Exit-sequence arming (source lines 217-220). -/
def irArm2 (now : Nat) (r2Low : Bool) (s : BusState) : BusState :=
  if r2Low && !s.ir2Triggered && !s.ir1Triggered then
    { s with ir2Triggered := true, lastTriggerTime := now }
  else s

/-- Exit-sequence completion (source lines 221-228): the decrement is
guarded by `passengerCount > 0`. -/
def irExit (now : Nat) (r1Low : Bool) (s : BusState) (o : CycleOutput) :
    BusState × CycleOutput :=
  if s.ir2Triggered && r1Low && decide (now - s.lastTriggerTime < SEQ_TIMEOUT_MS) then
    let pc := if 0 < s.passengerCount then s.passengerCount - 1 else s.passengerCount
    let s1 := updateLCD now { s with passengerCount := pc }
    ({ s1 with ir1Triggered := false, ir2Triggered := false },
     { o with exitEvents := o.exitEvents + 1,
              settleDelays := o.settleDelays ++ [IR_DEBOUNCE_MS] })
  else (s, o)

/-- Abandoning a timed-out half sequence (source lines 231-233). -/
def irAbandon (now : Nat) (s : BusState) : BusState :=
  if (s.ir1Triggered || s.ir2Triggered)
      && decide (SEQ_TIMEOUT_MS < now - s.lastTriggerTime) then
    { s with ir1Triggered := false, ir2Triggered := false }
  else s

/-- IR passenger-counting logic (source lines 199-233): the five sequential
conditionals of the source, threaded in order. -/
def irPhase (now : Nat) (r1Low r2Low : Bool) (s : BusState) (o : CycleOutput) :
    BusState × CycleOutput :=
  let p := irEntry now r2Low (irArm1 now r1Low s) o
  let q := irExit now r1Low (irArm2 now r2Low p.1) p.2
  (irAbandon now q.1, q.2)

/-- Overload-buzzer timeout (source lines 236-239). -/
def buzzerPhase (now : Nat) (s : BusState) (o : CycleOutput) :
    BusState × CycleOutput :=
    if s.buzzerOn && decide (BUZZER_DURATION_MS < now - s.buzzerOnTime) then
      ({ s with buzzerOn := false }, o)
    else (s, o)

/-- Function `checkAndCloseServo()` (source lines 364-386): the card-scan open
(`servoOpen`) closes after the same extended timeout when both sensors read
clear; when blocked it reports the obstruction and re-arms the timeout
(`lastMessageTime = millis()`). -/
def checkAndCloseServo (now : Nat) (ir1Low ir2Low : Bool) (s : BusState) (o : CycleOutput) :
    BusState × CycleOutput :=
    if s.servoOpen then
      if TIMEOUT_MS + GATE_BLOCK_CHECK_DELAY_MS < now - s.lastMessageTime then
        if !ir1Low && !ir2Low then
          (updateLCD now { s with servoPos := 60, servoOpen := false },
           { o with servoWrites := o.servoWrites ++ [60] })
        else
          ({ s with lastMessageTime := now },
           { o with blockedReports := o.blockedReports + 1 })
      else (s, o)
    else (s, o)

/-- One full pass of `loop()` (source lines 131-243): emergency handling
first; when emergency mode is (still) active afterwards every other phase
is skipped, otherwise the phases run in source order. -/
def loopStep (i : CycleInput) (s : BusState) : BusState × CycleOutput :=
  let r := handleEmergencyButton i.now i.buttonHigh s
  let o0 := { emptyOutput with toneFired := r.2 }
  if r.1.emergencyMode then (r.1, o0)
  else
    let a := serialPhase i.now i.serialLine r.1 o0
    let b := btTimeoutPhase i.now i.ir1Low i.ir2Low a.1 a.2
    let c := rfidPhase i.now i.rfidScan b.1 b.2
    let d := irPhase i.now i.ir1Low i.ir2Low c.1 c.2
    let e := buzzerPhase i.now d.1 d.2
    checkAndCloseServo i.now i.ir1Low i.ir2Low e.1 e.2

/-! ### Boot: EEPROM seeding and loading (source lines 92-128, 267-328) -/

def predefinedUsers : List StoredCard :=
  [ { uid := [0xF3, 0x97, 0x17, 0x2D], name := "BUS DRIVER" },
    { uid := [0x19, 0x78, 0x97, 0x3F], name := "HELPER" },
    { uid := [0x11, 0x22, 0x33, 0x44], name := "STATION MASTER" } ]

/-- Function `writePredefinedCardsToEEPROM()` (source lines 267-288): stores the
count of predefined users and overwrites the first card slots. -/
def writePredefinedCardsToEEPROM (e : EEPROMState) : EEPROMState :=
  { e with numCards := predefinedUsers.length,
           slots := predefinedUsers ++ e.slots.drop predefinedUsers.length }

/-- Function `loadCardsFromEEPROM()` (source lines 293-328): a stored count outside
`[0, MAX_REGISTERED_CARDS]` yields an empty in-memory registry with no
EEPROM write (`numLoadedCards` is an unsigned byte, so the `< 0` arm of the
source's check is vacuous, as it is here on `Nat`); otherwise the stored
cards are loaded with their scan counts reset to 0. -/
def loadCardsFromEEPROM (e : EEPROMState) : List RegisteredCard :=
  if MAX_REGISTERED_CARDS < e.numCards ∨ e.numCards < 0 then []
  else (e.slots.take e.numCards).map
    (fun c => { uid := c.uid, name := c.name, scanCount := 0 })

/-- The variable initialisers of the sketch (source lines 45-61), with the
servo written to its closed position and the buzzer low as in `setup()`. -/
def initBusState (cards : List RegisteredCard) : BusState :=
  { hasRotated := false, lastMessageTime := 0, passengerCount := 0,
    ir1Triggered := false, ir2Triggered := false, lastTriggerTime := 0,
    emergencyPressCount := 0, lastScannedName := "None", lastScannedCount := 0,
    overloadCount := 0, cards := cards, buzzerOn := false, buzzerOnTime := 0,
    lastButtonState := true, lastEmergencyTime := 0, emergencyMode := false,
    servoOpen := false, isOverloaded := false, servoPos := 60 }

/-- Function `setup()` (source lines 92-128): seed the EEPROM with the predefined
cards and the magic marker when the marker mismatches, then load. -/
def setup (e : EEPROMState) : EEPROMState × BusState :=
  let e1 := if e.magic ≠ MAGIC_VALUE then
      { writePredefinedCardsToEEPROM e with magic := MAGIC_VALUE }
    else e
  (e1, initBusState (loadCardsFromEEPROM e1))

/-- The states the controller can be in: any boot result, closed under
`loopStep` with arbitrary cycle inputs. -/
inductive Reachable : BusState → Prop where
  | boot (e : EEPROMState) : Reachable (setup e).2
  | step (s : BusState) (i : CycleInput) : Reachable s → Reachable (loopStep i s).1

/-- Run a sequence of cycles, discarding the per-cycle outputs. -/
def runCycles (inputs : List CycleInput) (s : BusState) : BusState :=
  inputs.foldl (fun t i => (loopStep i t).1) s

/-! ### Projection lemmas for `updateLCD` -/

@[simp] lemma updateLCD_passengerCount (now : Nat) (s : BusState) :
    (updateLCD now s).passengerCount = s.passengerCount := by
  unfold updateLCD; split
  · split <;> rfl
  · split <;> rfl

@[simp] lemma updateLCD_ir1Triggered (now : Nat) (s : BusState) :
    (updateLCD now s).ir1Triggered = s.ir1Triggered := by
  unfold updateLCD; split
  · split <;> rfl
  · split <;> rfl

@[simp] lemma updateLCD_ir2Triggered (now : Nat) (s : BusState) :
    (updateLCD now s).ir2Triggered = s.ir2Triggered := by
  unfold updateLCD; split
  · split <;> rfl
  · split <;> rfl

@[simp] lemma updateLCD_lastTriggerTime (now : Nat) (s : BusState) :
    (updateLCD now s).lastTriggerTime = s.lastTriggerTime := by
  unfold updateLCD; split
  · split <;> rfl
  · split <;> rfl

@[simp] lemma updateLCD_cards (now : Nat) (s : BusState) :
    (updateLCD now s).cards = s.cards := by
  unfold updateLCD; split
  · split <;> rfl
  · split <;> rfl

@[simp] lemma updateLCD_servoPos (now : Nat) (s : BusState) :
    (updateLCD now s).servoPos = s.servoPos := by
  unfold updateLCD; split
  · split <;> rfl
  · split <;> rfl

@[simp] lemma updateLCD_hasRotated (now : Nat) (s : BusState) :
    (updateLCD now s).hasRotated = s.hasRotated := by
  unfold updateLCD; split
  · split <;> rfl
  · split <;> rfl

@[simp] lemma updateLCD_servoOpen (now : Nat) (s : BusState) :
    (updateLCD now s).servoOpen = s.servoOpen := by
  unfold updateLCD; split
  · split <;> rfl
  · split <;> rfl

@[simp] lemma updateLCD_lastMessageTime (now : Nat) (s : BusState) :
    (updateLCD now s).lastMessageTime = s.lastMessageTime := by
  unfold updateLCD; split
  · split <;> rfl
  · split <;> rfl

@[simp] lemma updateLCD_emergencyMode (now : Nat) (s : BusState) :
    (updateLCD now s).emergencyMode = s.emergencyMode := by
  unfold updateLCD; split
  · split <;> rfl
  · split <;> rfl

@[simp] lemma updateLCD_emergencyPressCount (now : Nat) (s : BusState) :
    (updateLCD now s).emergencyPressCount = s.emergencyPressCount := by
  unfold updateLCD; split
  · split <;> rfl
  · split <;> rfl

@[simp] lemma updateLCD_lastEmergencyTime (now : Nat) (s : BusState) :
    (updateLCD now s).lastEmergencyTime = s.lastEmergencyTime := by
  unfold updateLCD; split
  · split <;> rfl
  · split <;> rfl

@[simp] lemma updateLCD_lastButtonState (now : Nat) (s : BusState) :
    (updateLCD now s).lastButtonState = s.lastButtonState := by
  unfold updateLCD; split
  · split <;> rfl
  · split <;> rfl

/-- The edge-latch effect of `updateLCD` on the overload counter. -/
lemma updateLCD_overloadCount (now : Nat) (s : BusState) :
    (updateLCD now s).overloadCount =
      if 5 < s.passengerCount ∧ s.isOverloaded = false then s.overloadCount + 1
      else s.overloadCount := by
  unfold updateLCD
  by_cases h5 : 5 < s.passengerCount <;> by_cases hov : s.isOverloaded = false <;>
    simp [h5, hov]

/-- After `updateLCD` the latch agrees with the instantaneous threshold test. -/
lemma updateLCD_isOverloaded (now : Nat) (s : BusState) :
    (updateLCD now s).isOverloaded = decide (5 < s.passengerCount) := by
  unfold updateLCD
  by_cases h5 : 5 < s.passengerCount <;> by_cases hov : s.isOverloaded = false <;>
    simp [h5, hov]

/-! ### Lemmas about `handleEmergencyButton` -/

/-- A press edge (button LOW after HIGH) activates emergency mode, stamps the
activation time, increments the press counter and fires the tone; the
timeout branch cannot revert it in the same call because the fresh
timestamp makes the elapsed time zero. -/
lemma handleEmergencyButton_press (now : Nat) (s : BusState)
    (hB : s.lastButtonState = true) :
    handleEmergencyButton now false s =
      ({ s with emergencyMode := true, lastEmergencyTime := now,
                emergencyPressCount := s.emergencyPressCount + 1,
                lastButtonState := false }, true) := by
  unfold handleEmergencyButton
  simp [hB, EMERGENCY_TIMEOUT_MS, Nat.sub_self]

/-- Within the 5000 ms window the mode stays active, whatever the button does. -/
lemma handleEmergencyButton_stay (now : Nat) (b : Bool) (s : BusState)
    (hM : s.emergencyMode = true)
    (hW : now - s.lastEmergencyTime ≤ EMERGENCY_TIMEOUT_MS) :
    (handleEmergencyButton now b s).1.emergencyMode = true := by
  unfold handleEmergencyButton
  have hW' : ¬ (EMERGENCY_TIMEOUT_MS < now - s.lastEmergencyTime) := Nat.not_lt.mpr hW
  by_cases hEdge : (!b && s.lastButtonState) = true
  · simp [hEdge, EMERGENCY_TIMEOUT_MS, Nat.sub_self]
  · simp only [Bool.not_eq_true] at hEdge
    simp [hEdge, hM, hW']

/-- Once the window has elapsed and no new press edge occurs, the mode
reverts to inactive in the same call. -/
lemma handleEmergencyButton_expire (now : Nat) (b : Bool) (s : BusState)
    (hM : s.emergencyMode = true)
    (hEdge : (!b && s.lastButtonState) = false)
    (hW : EMERGENCY_TIMEOUT_MS < now - s.lastEmergencyTime) :
    (handleEmergencyButton now b s).1.emergencyMode = false := by
  unfold handleEmergencyButton
  simp [hEdge, hM, hW]

/-- With the mode inactive and no press edge, it stays inactive. -/
lemma handleEmergencyButton_off (now : Nat) (b : Bool) (s : BusState)
    (hM : s.emergencyMode = false)
    (hEdge : (!b && s.lastButtonState) = false) :
    (handleEmergencyButton now b s).1.emergencyMode = false := by
  unfold handleEmergencyButton
  simp [hEdge, hM]

/-- Fields untouched by the emergency handler (the timeout branch only runs
`updateLCD`, which also leaves all of these alone). -/
lemma handleEmergencyButton_frame (now : Nat) (b : Bool) (s : BusState) :
    (handleEmergencyButton now b s).1.passengerCount = s.passengerCount ∧
    (handleEmergencyButton now b s).1.cards = s.cards ∧
    (handleEmergencyButton now b s).1.ir1Triggered = s.ir1Triggered ∧
    (handleEmergencyButton now b s).1.ir2Triggered = s.ir2Triggered ∧
    (handleEmergencyButton now b s).1.lastTriggerTime = s.lastTriggerTime ∧
    (handleEmergencyButton now b s).1.hasRotated = s.hasRotated ∧
    (handleEmergencyButton now b s).1.servoOpen = s.servoOpen ∧
    (handleEmergencyButton now b s).1.servoPos = s.servoPos ∧
    (handleEmergencyButton now b s).1.lastMessageTime = s.lastMessageTime := by
  unfold handleEmergencyButton
  by_cases hEdge : (!b && s.lastButtonState) = true <;> simp [hEdge] <;> split <;> simp

/-! ### Frame and branch lemmas for the loop phases -/

/-- The overload latch agrees with the instantaneous threshold test; this is
re-established by every `updateLCD` call and holds in every reachable
state. -/
def latchOK (s : BusState) : Prop :=
  s.isOverloaded = decide (5 < s.passengerCount)

lemma latchOK_updateLCD (now : Nat) (s : BusState) : latchOK (updateLCD now s) := by
  unfold latchOK
  rw [updateLCD_isOverloaded, updateLCD_passengerCount]

/-! #### Field-preservation lemmas for the remaining phases -/

@[simp] lemma serialPhase_passengerCount (now : Nat) (line : Option String) (s : BusState) (o : CycleOutput) :
    (serialPhase now line s o).1.passengerCount = s.passengerCount := by
  cases line with
  | none => simp [serialPhase]
  | some msg =>
    simp only [serialPhase]
    split <;> simp

@[simp] lemma serialPhase_cards (now : Nat) (line : Option String) (s : BusState) (o : CycleOutput) :
    (serialPhase now line s o).1.cards = s.cards := by
  cases line with
  | none => simp [serialPhase]
  | some msg =>
    simp only [serialPhase]
    split <;> simp

@[simp] lemma serialPhase_ir1Triggered (now : Nat) (line : Option String) (s : BusState) (o : CycleOutput) :
    (serialPhase now line s o).1.ir1Triggered = s.ir1Triggered := by
  cases line with
  | none => simp [serialPhase]
  | some msg =>
    simp only [serialPhase]
    split <;> simp

@[simp] lemma serialPhase_ir2Triggered (now : Nat) (line : Option String) (s : BusState) (o : CycleOutput) :
    (serialPhase now line s o).1.ir2Triggered = s.ir2Triggered := by
  cases line with
  | none => simp [serialPhase]
  | some msg =>
    simp only [serialPhase]
    split <;> simp

@[simp] lemma serialPhase_lastTriggerTime (now : Nat) (line : Option String) (s : BusState) (o : CycleOutput) :
    (serialPhase now line s o).1.lastTriggerTime = s.lastTriggerTime := by
  cases line with
  | none => simp [serialPhase]
  | some msg =>
    simp only [serialPhase]
    split <;> simp

@[simp] lemma serialPhase_emergencyMode (now : Nat) (line : Option String) (s : BusState) (o : CycleOutput) :
    (serialPhase now line s o).1.emergencyMode = s.emergencyMode := by
  cases line with
  | none => simp [serialPhase]
  | some msg =>
    simp only [serialPhase]
    split <;> simp

@[simp] lemma serialPhase_servoOpen (now : Nat) (line : Option String) (s : BusState) (o : CycleOutput) :
    (serialPhase now line s o).1.servoOpen = s.servoOpen := by
  cases line with
  | none => simp [serialPhase]
  | some msg =>
    simp only [serialPhase]
    split <;> simp

@[simp] lemma serialPhase_isOverloaded (now : Nat) (line : Option String) (s : BusState) (o : CycleOutput) :
    (serialPhase now line s o).1.isOverloaded = s.isOverloaded := by
  cases line with
  | none => simp [serialPhase]
  | some msg =>
    simp only [serialPhase]
    split <;> simp

@[simp] lemma serialPhase_overloadCount (now : Nat) (line : Option String) (s : BusState) (o : CycleOutput) :
    (serialPhase now line s o).1.overloadCount = s.overloadCount := by
  cases line with
  | none => simp [serialPhase]
  | some msg =>
    simp only [serialPhase]
    split <;> simp

@[simp] lemma serialPhase_emergencyPressCount (now : Nat) (line : Option String) (s : BusState) (o : CycleOutput) :
    (serialPhase now line s o).1.emergencyPressCount = s.emergencyPressCount := by
  cases line with
  | none => simp [serialPhase]
  | some msg =>
    simp only [serialPhase]
    split <;> simp

@[simp] lemma serialPhase_entryEvents (now : Nat) (line : Option String) (s : BusState) (o : CycleOutput) :
    (serialPhase now line s o).2.entryEvents = o.entryEvents := by
  cases line with
  | none => simp [serialPhase]
  | some msg =>
    simp only [serialPhase]
    split <;> simp

@[simp] lemma serialPhase_exitEvents (now : Nat) (line : Option String) (s : BusState) (o : CycleOutput) :
    (serialPhase now line s o).2.exitEvents = o.exitEvents := by
  cases line with
  | none => simp [serialPhase]
  | some msg =>
    simp only [serialPhase]
    split <;> simp

@[simp] lemma serialPhase_deniedEvents (now : Nat) (line : Option String) (s : BusState) (o : CycleOutput) :
    (serialPhase now line s o).2.deniedEvents = o.deniedEvents := by
  cases line with
  | none => simp [serialPhase]
  | some msg =>
    simp only [serialPhase]
    split <;> simp

@[simp] lemma serialPhase_blockedReports (now : Nat) (line : Option String) (s : BusState) (o : CycleOutput) :
    (serialPhase now line s o).2.blockedReports = o.blockedReports := by
  cases line with
  | none => simp [serialPhase]
  | some msg =>
    simp only [serialPhase]
    split <;> simp

@[simp] lemma serialPhase_toneFired (now : Nat) (line : Option String) (s : BusState) (o : CycleOutput) :
    (serialPhase now line s o).2.toneFired = o.toneFired := by
  cases line with
  | none => simp [serialPhase]
  | some msg =>
    simp only [serialPhase]
    split <;> simp

@[simp] lemma btTimeoutPhase_passengerCount (now : Nat) (r1 r2 : Bool) (s : BusState) (o : CycleOutput) :
    (btTimeoutPhase now r1 r2 s o).1.passengerCount = s.passengerCount := by
  unfold btTimeoutPhase
  split
  · split
    · split
      · split <;> simp
      · simp
    · simp
  · simp

@[simp] lemma btTimeoutPhase_cards (now : Nat) (r1 r2 : Bool) (s : BusState) (o : CycleOutput) :
    (btTimeoutPhase now r1 r2 s o).1.cards = s.cards := by
  unfold btTimeoutPhase
  split
  · split
    · split
      · split <;> simp
      · simp
    · simp
  · simp

@[simp] lemma btTimeoutPhase_ir1Triggered (now : Nat) (r1 r2 : Bool) (s : BusState) (o : CycleOutput) :
    (btTimeoutPhase now r1 r2 s o).1.ir1Triggered = s.ir1Triggered := by
  unfold btTimeoutPhase
  split
  · split
    · split
      · split <;> simp
      · simp
    · simp
  · simp

@[simp] lemma btTimeoutPhase_ir2Triggered (now : Nat) (r1 r2 : Bool) (s : BusState) (o : CycleOutput) :
    (btTimeoutPhase now r1 r2 s o).1.ir2Triggered = s.ir2Triggered := by
  unfold btTimeoutPhase
  split
  · split
    · split
      · split <;> simp
      · simp
    · simp
  · simp

@[simp] lemma btTimeoutPhase_lastTriggerTime (now : Nat) (r1 r2 : Bool) (s : BusState) (o : CycleOutput) :
    (btTimeoutPhase now r1 r2 s o).1.lastTriggerTime = s.lastTriggerTime := by
  unfold btTimeoutPhase
  split
  · split
    · split
      · split <;> simp
      · simp
    · simp
  · simp

@[simp] lemma btTimeoutPhase_lastMessageTime (now : Nat) (r1 r2 : Bool) (s : BusState) (o : CycleOutput) :
    (btTimeoutPhase now r1 r2 s o).1.lastMessageTime = s.lastMessageTime := by
  unfold btTimeoutPhase
  split
  · split
    · split
      · split <;> simp
      · simp
    · simp
  · simp

@[simp] lemma btTimeoutPhase_servoOpen (now : Nat) (r1 r2 : Bool) (s : BusState) (o : CycleOutput) :
    (btTimeoutPhase now r1 r2 s o).1.servoOpen = s.servoOpen := by
  unfold btTimeoutPhase
  split
  · split
    · split
      · split <;> simp
      · simp
    · simp
  · simp

@[simp] lemma btTimeoutPhase_emergencyMode (now : Nat) (r1 r2 : Bool) (s : BusState) (o : CycleOutput) :
    (btTimeoutPhase now r1 r2 s o).1.emergencyMode = s.emergencyMode := by
  unfold btTimeoutPhase
  split
  · split
    · split
      · split <;> simp
      · simp
    · simp
  · simp

@[simp] lemma btTimeoutPhase_emergencyPressCount (now : Nat) (r1 r2 : Bool) (s : BusState) (o : CycleOutput) :
    (btTimeoutPhase now r1 r2 s o).1.emergencyPressCount = s.emergencyPressCount := by
  unfold btTimeoutPhase
  split
  · split
    · split
      · split <;> simp
      · simp
    · simp
  · simp

@[simp] lemma btTimeoutPhase_toneFired (now : Nat) (r1 r2 : Bool) (s : BusState) (o : CycleOutput) :
    (btTimeoutPhase now r1 r2 s o).2.toneFired = o.toneFired := by
  unfold btTimeoutPhase
  split
  · split
    · split
      · split <;> simp
      · simp
    · simp
  · simp

@[simp] lemma btTimeoutPhase_adminLines (now : Nat) (r1 r2 : Bool) (s : BusState) (o : CycleOutput) :
    (btTimeoutPhase now r1 r2 s o).2.adminLines = o.adminLines := by
  unfold btTimeoutPhase
  split
  · split
    · split
      · split <;> simp
      · simp
    · simp
  · simp

@[simp] lemma btTimeoutPhase_settleDelays (now : Nat) (r1 r2 : Bool) (s : BusState) (o : CycleOutput) :
    (btTimeoutPhase now r1 r2 s o).2.settleDelays = o.settleDelays := by
  unfold btTimeoutPhase
  split
  · split
    · split
      · split <;> simp
      · simp
    · simp
  · simp

@[simp] lemma btTimeoutPhase_entryEvents (now : Nat) (r1 r2 : Bool) (s : BusState) (o : CycleOutput) :
    (btTimeoutPhase now r1 r2 s o).2.entryEvents = o.entryEvents := by
  unfold btTimeoutPhase
  split
  · split
    · split
      · split <;> simp
      · simp
    · simp
  · simp

@[simp] lemma btTimeoutPhase_exitEvents (now : Nat) (r1 r2 : Bool) (s : BusState) (o : CycleOutput) :
    (btTimeoutPhase now r1 r2 s o).2.exitEvents = o.exitEvents := by
  unfold btTimeoutPhase
  split
  · split
    · split
      · split <;> simp
      · simp
    · simp
  · simp

@[simp] lemma btTimeoutPhase_deniedEvents (now : Nat) (r1 r2 : Bool) (s : BusState) (o : CycleOutput) :
    (btTimeoutPhase now r1 r2 s o).2.deniedEvents = o.deniedEvents := by
  unfold btTimeoutPhase
  split
  · split
    · split
      · split <;> simp
      · simp
    · simp
  · simp

@[simp] lemma rfidPhase_passengerCount (now : Nat) (scan : Option (List Nat)) (s : BusState) (o : CycleOutput) :
    (rfidPhase now scan s o).1.passengerCount = s.passengerCount := by
  unfold rfidPhase activateServo
  split
  · simp
  · cases scan with
    | none => simp
    | some uid =>
      cases h1 : findCardIndex s.cards uid with
      | none => simp [h1]
      | some idx =>
        cases h2 : s.cards[idx]? with
        | none => simp [h1, h2]
        | some c => simp [h1, h2]

@[simp] lemma rfidPhase_ir1Triggered (now : Nat) (scan : Option (List Nat)) (s : BusState) (o : CycleOutput) :
    (rfidPhase now scan s o).1.ir1Triggered = s.ir1Triggered := by
  unfold rfidPhase activateServo
  split
  · simp
  · cases scan with
    | none => simp
    | some uid =>
      cases h1 : findCardIndex s.cards uid with
      | none => simp [h1]
      | some idx =>
        cases h2 : s.cards[idx]? with
        | none => simp [h1, h2]
        | some c => simp [h1, h2]

@[simp] lemma rfidPhase_ir2Triggered (now : Nat) (scan : Option (List Nat)) (s : BusState) (o : CycleOutput) :
    (rfidPhase now scan s o).1.ir2Triggered = s.ir2Triggered := by
  unfold rfidPhase activateServo
  split
  · simp
  · cases scan with
    | none => simp
    | some uid =>
      cases h1 : findCardIndex s.cards uid with
      | none => simp [h1]
      | some idx =>
        cases h2 : s.cards[idx]? with
        | none => simp [h1, h2]
        | some c => simp [h1, h2]

@[simp] lemma rfidPhase_lastTriggerTime (now : Nat) (scan : Option (List Nat)) (s : BusState) (o : CycleOutput) :
    (rfidPhase now scan s o).1.lastTriggerTime = s.lastTriggerTime := by
  unfold rfidPhase activateServo
  split
  · simp
  · cases scan with
    | none => simp
    | some uid =>
      cases h1 : findCardIndex s.cards uid with
      | none => simp [h1]
      | some idx =>
        cases h2 : s.cards[idx]? with
        | none => simp [h1, h2]
        | some c => simp [h1, h2]

@[simp] lemma rfidPhase_hasRotated (now : Nat) (scan : Option (List Nat)) (s : BusState) (o : CycleOutput) :
    (rfidPhase now scan s o).1.hasRotated = s.hasRotated := by
  unfold rfidPhase activateServo
  split
  · simp
  · cases scan with
    | none => simp
    | some uid =>
      cases h1 : findCardIndex s.cards uid with
      | none => simp [h1]
      | some idx =>
        cases h2 : s.cards[idx]? with
        | none => simp [h1, h2]
        | some c => simp [h1, h2]

@[simp] lemma rfidPhase_emergencyMode (now : Nat) (scan : Option (List Nat)) (s : BusState) (o : CycleOutput) :
    (rfidPhase now scan s o).1.emergencyMode = s.emergencyMode := by
  unfold rfidPhase activateServo
  split
  · simp
  · cases scan with
    | none => simp
    | some uid =>
      cases h1 : findCardIndex s.cards uid with
      | none => simp [h1]
      | some idx =>
        cases h2 : s.cards[idx]? with
        | none => simp [h1, h2]
        | some c => simp [h1, h2]

@[simp] lemma rfidPhase_isOverloaded (now : Nat) (scan : Option (List Nat)) (s : BusState) (o : CycleOutput) :
    (rfidPhase now scan s o).1.isOverloaded = s.isOverloaded := by
  unfold rfidPhase activateServo
  split
  · simp
  · cases scan with
    | none => simp
    | some uid =>
      cases h1 : findCardIndex s.cards uid with
      | none => simp [h1]
      | some idx =>
        cases h2 : s.cards[idx]? with
        | none => simp [h1, h2]
        | some c => simp [h1, h2]

@[simp] lemma rfidPhase_overloadCount (now : Nat) (scan : Option (List Nat)) (s : BusState) (o : CycleOutput) :
    (rfidPhase now scan s o).1.overloadCount = s.overloadCount := by
  unfold rfidPhase activateServo
  split
  · simp
  · cases scan with
    | none => simp
    | some uid =>
      cases h1 : findCardIndex s.cards uid with
      | none => simp [h1]
      | some idx =>
        cases h2 : s.cards[idx]? with
        | none => simp [h1, h2]
        | some c => simp [h1, h2]

@[simp] lemma rfidPhase_emergencyPressCount (now : Nat) (scan : Option (List Nat)) (s : BusState) (o : CycleOutput) :
    (rfidPhase now scan s o).1.emergencyPressCount = s.emergencyPressCount := by
  unfold rfidPhase activateServo
  split
  · simp
  · cases scan with
    | none => simp
    | some uid =>
      cases h1 : findCardIndex s.cards uid with
      | none => simp [h1]
      | some idx =>
        cases h2 : s.cards[idx]? with
        | none => simp [h1, h2]
        | some c => simp [h1, h2]

@[simp] lemma rfidPhase_toneFired (now : Nat) (scan : Option (List Nat)) (s : BusState) (o : CycleOutput) :
    (rfidPhase now scan s o).2.toneFired = o.toneFired := by
  unfold rfidPhase activateServo
  split
  · simp
  · cases scan with
    | none => simp
    | some uid =>
      cases h1 : findCardIndex s.cards uid with
      | none => simp [h1]
      | some idx =>
        cases h2 : s.cards[idx]? with
        | none => simp [h1, h2]
        | some c => simp [h1, h2]

@[simp] lemma rfidPhase_adminLines (now : Nat) (scan : Option (List Nat)) (s : BusState) (o : CycleOutput) :
    (rfidPhase now scan s o).2.adminLines = o.adminLines := by
  unfold rfidPhase activateServo
  split
  · simp
  · cases scan with
    | none => simp
    | some uid =>
      cases h1 : findCardIndex s.cards uid with
      | none => simp [h1]
      | some idx =>
        cases h2 : s.cards[idx]? with
        | none => simp [h1, h2]
        | some c => simp [h1, h2]

@[simp] lemma rfidPhase_settleDelays (now : Nat) (scan : Option (List Nat)) (s : BusState) (o : CycleOutput) :
    (rfidPhase now scan s o).2.settleDelays = o.settleDelays := by
  unfold rfidPhase activateServo
  split
  · simp
  · cases scan with
    | none => simp
    | some uid =>
      cases h1 : findCardIndex s.cards uid with
      | none => simp [h1]
      | some idx =>
        cases h2 : s.cards[idx]? with
        | none => simp [h1, h2]
        | some c => simp [h1, h2]

@[simp] lemma rfidPhase_entryEvents (now : Nat) (scan : Option (List Nat)) (s : BusState) (o : CycleOutput) :
    (rfidPhase now scan s o).2.entryEvents = o.entryEvents := by
  unfold rfidPhase activateServo
  split
  · simp
  · cases scan with
    | none => simp
    | some uid =>
      cases h1 : findCardIndex s.cards uid with
      | none => simp [h1]
      | some idx =>
        cases h2 : s.cards[idx]? with
        | none => simp [h1, h2]
        | some c => simp [h1, h2]

@[simp] lemma rfidPhase_exitEvents (now : Nat) (scan : Option (List Nat)) (s : BusState) (o : CycleOutput) :
    (rfidPhase now scan s o).2.exitEvents = o.exitEvents := by
  unfold rfidPhase activateServo
  split
  · simp
  · cases scan with
    | none => simp
    | some uid =>
      cases h1 : findCardIndex s.cards uid with
      | none => simp [h1]
      | some idx =>
        cases h2 : s.cards[idx]? with
        | none => simp [h1, h2]
        | some c => simp [h1, h2]

@[simp] lemma rfidPhase_blockedReports (now : Nat) (scan : Option (List Nat)) (s : BusState) (o : CycleOutput) :
    (rfidPhase now scan s o).2.blockedReports = o.blockedReports := by
  unfold rfidPhase activateServo
  split
  · simp
  · cases scan with
    | none => simp
    | some uid =>
      cases h1 : findCardIndex s.cards uid with
      | none => simp [h1]
      | some idx =>
        cases h2 : s.cards[idx]? with
        | none => simp [h1, h2]
        | some c => simp [h1, h2]

@[simp] lemma buzzerPhase_passengerCount (now : Nat) (s : BusState) (o : CycleOutput) :
    (buzzerPhase now s o).1.passengerCount = s.passengerCount := by
  unfold buzzerPhase
  split <;> simp

@[simp] lemma buzzerPhase_cards (now : Nat) (s : BusState) (o : CycleOutput) :
    (buzzerPhase now s o).1.cards = s.cards := by
  unfold buzzerPhase
  split <;> simp

@[simp] lemma buzzerPhase_ir1Triggered (now : Nat) (s : BusState) (o : CycleOutput) :
    (buzzerPhase now s o).1.ir1Triggered = s.ir1Triggered := by
  unfold buzzerPhase
  split <;> simp

@[simp] lemma buzzerPhase_ir2Triggered (now : Nat) (s : BusState) (o : CycleOutput) :
    (buzzerPhase now s o).1.ir2Triggered = s.ir2Triggered := by
  unfold buzzerPhase
  split <;> simp

@[simp] lemma buzzerPhase_lastTriggerTime (now : Nat) (s : BusState) (o : CycleOutput) :
    (buzzerPhase now s o).1.lastTriggerTime = s.lastTriggerTime := by
  unfold buzzerPhase
  split <;> simp

@[simp] lemma buzzerPhase_hasRotated (now : Nat) (s : BusState) (o : CycleOutput) :
    (buzzerPhase now s o).1.hasRotated = s.hasRotated := by
  unfold buzzerPhase
  split <;> simp

@[simp] lemma buzzerPhase_servoOpen (now : Nat) (s : BusState) (o : CycleOutput) :
    (buzzerPhase now s o).1.servoOpen = s.servoOpen := by
  unfold buzzerPhase
  split <;> simp

@[simp] lemma buzzerPhase_servoPos (now : Nat) (s : BusState) (o : CycleOutput) :
    (buzzerPhase now s o).1.servoPos = s.servoPos := by
  unfold buzzerPhase
  split <;> simp

@[simp] lemma buzzerPhase_lastMessageTime (now : Nat) (s : BusState) (o : CycleOutput) :
    (buzzerPhase now s o).1.lastMessageTime = s.lastMessageTime := by
  unfold buzzerPhase
  split <;> simp

@[simp] lemma buzzerPhase_emergencyMode (now : Nat) (s : BusState) (o : CycleOutput) :
    (buzzerPhase now s o).1.emergencyMode = s.emergencyMode := by
  unfold buzzerPhase
  split <;> simp

@[simp] lemma buzzerPhase_isOverloaded (now : Nat) (s : BusState) (o : CycleOutput) :
    (buzzerPhase now s o).1.isOverloaded = s.isOverloaded := by
  unfold buzzerPhase
  split <;> simp

@[simp] lemma buzzerPhase_overloadCount (now : Nat) (s : BusState) (o : CycleOutput) :
    (buzzerPhase now s o).1.overloadCount = s.overloadCount := by
  unfold buzzerPhase
  split <;> simp

@[simp] lemma buzzerPhase_emergencyPressCount (now : Nat) (s : BusState) (o : CycleOutput) :
    (buzzerPhase now s o).1.emergencyPressCount = s.emergencyPressCount := by
  unfold buzzerPhase
  split <;> simp

@[simp] lemma buzzerPhase_output (now : Nat) (s : BusState) (o : CycleOutput) :
    (buzzerPhase now s o).2 = o := by
  unfold buzzerPhase
  split <;> simp

@[simp] lemma checkAndCloseServo_passengerCount (now : Nat) (r1 r2 : Bool) (s : BusState) (o : CycleOutput) :
    (checkAndCloseServo now r1 r2 s o).1.passengerCount = s.passengerCount := by
  unfold checkAndCloseServo
  split
  · split
    · split <;> simp
    · simp
  · simp

@[simp] lemma checkAndCloseServo_cards (now : Nat) (r1 r2 : Bool) (s : BusState) (o : CycleOutput) :
    (checkAndCloseServo now r1 r2 s o).1.cards = s.cards := by
  unfold checkAndCloseServo
  split
  · split
    · split <;> simp
    · simp
  · simp

@[simp] lemma checkAndCloseServo_ir1Triggered (now : Nat) (r1 r2 : Bool) (s : BusState) (o : CycleOutput) :
    (checkAndCloseServo now r1 r2 s o).1.ir1Triggered = s.ir1Triggered := by
  unfold checkAndCloseServo
  split
  · split
    · split <;> simp
    · simp
  · simp

@[simp] lemma checkAndCloseServo_ir2Triggered (now : Nat) (r1 r2 : Bool) (s : BusState) (o : CycleOutput) :
    (checkAndCloseServo now r1 r2 s o).1.ir2Triggered = s.ir2Triggered := by
  unfold checkAndCloseServo
  split
  · split
    · split <;> simp
    · simp
  · simp

@[simp] lemma checkAndCloseServo_lastTriggerTime (now : Nat) (r1 r2 : Bool) (s : BusState) (o : CycleOutput) :
    (checkAndCloseServo now r1 r2 s o).1.lastTriggerTime = s.lastTriggerTime := by
  unfold checkAndCloseServo
  split
  · split
    · split <;> simp
    · simp
  · simp

@[simp] lemma checkAndCloseServo_hasRotated (now : Nat) (r1 r2 : Bool) (s : BusState) (o : CycleOutput) :
    (checkAndCloseServo now r1 r2 s o).1.hasRotated = s.hasRotated := by
  unfold checkAndCloseServo
  split
  · split
    · split <;> simp
    · simp
  · simp

@[simp] lemma checkAndCloseServo_emergencyMode (now : Nat) (r1 r2 : Bool) (s : BusState) (o : CycleOutput) :
    (checkAndCloseServo now r1 r2 s o).1.emergencyMode = s.emergencyMode := by
  unfold checkAndCloseServo
  split
  · split
    · split <;> simp
    · simp
  · simp

@[simp] lemma checkAndCloseServo_emergencyPressCount (now : Nat) (r1 r2 : Bool) (s : BusState) (o : CycleOutput) :
    (checkAndCloseServo now r1 r2 s o).1.emergencyPressCount = s.emergencyPressCount := by
  unfold checkAndCloseServo
  split
  · split
    · split <;> simp
    · simp
  · simp

@[simp] lemma checkAndCloseServo_toneFired (now : Nat) (r1 r2 : Bool) (s : BusState) (o : CycleOutput) :
    (checkAndCloseServo now r1 r2 s o).2.toneFired = o.toneFired := by
  unfold checkAndCloseServo
  split
  · split
    · split <;> simp
    · simp
  · simp

@[simp] lemma checkAndCloseServo_adminLines (now : Nat) (r1 r2 : Bool) (s : BusState) (o : CycleOutput) :
    (checkAndCloseServo now r1 r2 s o).2.adminLines = o.adminLines := by
  unfold checkAndCloseServo
  split
  · split
    · split <;> simp
    · simp
  · simp

@[simp] lemma checkAndCloseServo_settleDelays (now : Nat) (r1 r2 : Bool) (s : BusState) (o : CycleOutput) :
    (checkAndCloseServo now r1 r2 s o).2.settleDelays = o.settleDelays := by
  unfold checkAndCloseServo
  split
  · split
    · split <;> simp
    · simp
  · simp

@[simp] lemma checkAndCloseServo_entryEvents (now : Nat) (r1 r2 : Bool) (s : BusState) (o : CycleOutput) :
    (checkAndCloseServo now r1 r2 s o).2.entryEvents = o.entryEvents := by
  unfold checkAndCloseServo
  split
  · split
    · split <;> simp
    · simp
  · simp

@[simp] lemma checkAndCloseServo_exitEvents (now : Nat) (r1 r2 : Bool) (s : BusState) (o : CycleOutput) :
    (checkAndCloseServo now r1 r2 s o).2.exitEvents = o.exitEvents := by
  unfold checkAndCloseServo
  split
  · split
    · split <;> simp
    · simp
  · simp

@[simp] lemma checkAndCloseServo_deniedEvents (now : Nat) (r1 r2 : Bool) (s : BusState) (o : CycleOutput) :
    (checkAndCloseServo now r1 r2 s o).2.deniedEvents = o.deniedEvents := by
  unfold checkAndCloseServo
  split
  · split
    · split <;> simp
    · simp
  · simp

lemma serialPhase_none (now : Nat) (s : BusState) (o : CycleOutput) :
    serialPhase now none s o = (s, o) := rfl

lemma serialPhase_some_lastMessageTime (now : Nat) (msg : String)
    (s : BusState) (o : CycleOutput) :
    (serialPhase now (some msg) s o).1.lastMessageTime = now := by
  simp only [serialPhase]
  split <;> rfl

lemma serialPhase_rotated (now : Nat) (msg : String) (s : BusState) (o : CycleOutput)
    (h : s.hasRotated = true) :
    serialPhase now (some msg) s o = ({ s with lastMessageTime := now }, o) := by
  simp only [serialPhase]
  simp [h]

/-- A heartbeat line received with `hasRotated` clear: settle delay, gate
open, `hasRotated` set, one admin line transmitted. -/
lemma serialPhase_heartbeat (now : Nat) (msg : String) (s : BusState) (o : CycleOutput)
    (hR : s.hasRotated = false) (hHB : containsHeartbeat msg = true) :
    serialPhase now (some msg) s o =
      ({ s with lastMessageTime := now, servoPos := 120, hasRotated := true },
       { o with settleDelays := o.settleDelays ++ [6000],
                servoWrites := o.servoWrites ++ [120],
                adminLines := o.adminLines ++
                  [sendAdminData { s with lastMessageTime := now, servoPos := 120,
                                          hasRotated := true }] }) := by
  simp only [serialPhase]
  simp [hR, hHB]

lemma serialPhase_servoPos_or (now : Nat) (line : Option String)
    (s : BusState) (o : CycleOutput) :
    (serialPhase now line s o).1.servoPos = s.servoPos ∨
    (serialPhase now line s o).1.servoPos = 120 := by
  cases line with
  | none => left; rfl
  | some msg =>
    simp only [serialPhase]
    split
    · right; rfl
    · left; rfl

lemma btTimeoutPhase_fresh (now : Nat) (r1 r2 : Bool) (s : BusState) (o : CycleOutput)
    (h : ¬ (TIMEOUT_MS < now - s.lastMessageTime)) :
    btTimeoutPhase now r1 r2 s o = (s, o) := by
  unfold btTimeoutPhase
  split
  · simp [h]
  · rfl

lemma btTimeoutPhase_notRotated (now : Nat) (r1 r2 : Bool) (s : BusState) (o : CycleOutput)
    (h : s.hasRotated = false) :
    btTimeoutPhase now r1 r2 s o = (s, o) := by
  unfold btTimeoutPhase
  simp [h]

/-- With either sensor interrupted the remote-open close branch cannot run:
the servo angle and the `hasRotated` flag survive, and the timeout
reference is not touched either. -/
lemma btTimeoutPhase_blocked (now : Nat) (r1 r2 : Bool) (s : BusState) (o : CycleOutput)
    (h : r1 = true ∨ r2 = true) :
    (btTimeoutPhase now r1 r2 s o).1.servoPos = s.servoPos ∧
    (btTimeoutPhase now r1 r2 s o).1.hasRotated = s.hasRotated ∧
    (btTimeoutPhase now r1 r2 s o).1.isOverloaded = s.isOverloaded ∧
    (btTimeoutPhase now r1 r2 s o).1.overloadCount = s.overloadCount := by
  have hcl : (!r1 && !r2) = false := by
    rcases h with h | h <;> simp [h]
  unfold btTimeoutPhase
  split
  · split
    · split
      · rw [hcl]; simp
      · simp
    · simp
  · simp

lemma rfidPhase_none (now : Nat) (s : BusState) (o : CycleOutput) :
    rfidPhase now none s o = (s, o) := by
  unfold rfidPhase
  split <;> rfl

lemma rfidPhase_rotated (now : Nat) (scan : Option (List Nat))
    (s : BusState) (o : CycleOutput) (h : s.hasRotated = true) :
    rfidPhase now scan s o = (s, o) := by
  unfold rfidPhase
  simp [h]

/-- A registered identifier presented while `hasRotated` is clear: the scan
count bumps, the scan is remembered, and `activateServo` opens the gate and
refreshes the timeout reference. -/
lemma rfidPhase_grant (now : Nat) (uid : List Nat) (idx : Nat) (c : RegisteredCard)
    (s : BusState) (o : CycleOutput) (hR : s.hasRotated = false)
    (h1 : findCardIndex s.cards uid = some idx) (h2 : s.cards[idx]? = some c) :
    rfidPhase now (some uid) s o =
      ({ s with cards := bumpScan s.cards idx, lastScannedName := c.name,
                lastScannedCount := c.scanCount + 1, servoPos := 120,
                servoOpen := true, lastMessageTime := now },
       { o with servoWrites := o.servoWrites ++ [120] }) := by
  unfold rfidPhase activateServo
  simp [hR, h1, h2]

lemma rfidPhase_servoPos_or (now : Nat) (scan : Option (List Nat))
    (s : BusState) (o : CycleOutput) :
    (rfidPhase now scan s o).1.servoPos = s.servoPos ∨
    (rfidPhase now scan s o).1.servoPos = 120 := by
  unfold rfidPhase activateServo
  split
  · left; rfl
  · cases scan with
    | none => left; rfl
    | some uid =>
      cases h1 : findCardIndex s.cards uid with
      | none => left; simp [h1]
      | some idx =>
        cases h2 : s.cards[idx]? with
        | none => left; simp [h1, h2]
        | some c => right; simp [h1, h2]

/-! #### Sub-step lemmas for the IR logic -/

@[simp] lemma irArm1_passengerCount (now : Nat) (r1 : Bool) (s : BusState) :
    (irArm1 now r1 s).passengerCount = s.passengerCount := by
  unfold irArm1; split <;> rfl

@[simp] lemma irArm1_cards (now : Nat) (r1 : Bool) (s : BusState) :
    (irArm1 now r1 s).cards = s.cards := by
  unfold irArm1; split <;> rfl

@[simp] lemma irArm1_hasRotated (now : Nat) (r1 : Bool) (s : BusState) :
    (irArm1 now r1 s).hasRotated = s.hasRotated := by
  unfold irArm1; split <;> rfl

@[simp] lemma irArm1_servoOpen (now : Nat) (r1 : Bool) (s : BusState) :
    (irArm1 now r1 s).servoOpen = s.servoOpen := by
  unfold irArm1; split <;> rfl

@[simp] lemma irArm1_servoPos (now : Nat) (r1 : Bool) (s : BusState) :
    (irArm1 now r1 s).servoPos = s.servoPos := by
  unfold irArm1; split <;> rfl

@[simp] lemma irArm1_lastMessageTime (now : Nat) (r1 : Bool) (s : BusState) :
    (irArm1 now r1 s).lastMessageTime = s.lastMessageTime := by
  unfold irArm1; split <;> rfl

@[simp] lemma irArm1_emergencyMode (now : Nat) (r1 : Bool) (s : BusState) :
    (irArm1 now r1 s).emergencyMode = s.emergencyMode := by
  unfold irArm1; split <;> rfl

@[simp] lemma irArm1_emergencyPressCount (now : Nat) (r1 : Bool) (s : BusState) :
    (irArm1 now r1 s).emergencyPressCount = s.emergencyPressCount := by
  unfold irArm1; split <;> rfl

@[simp] lemma irArm1_isOverloaded (now : Nat) (r1 : Bool) (s : BusState) :
    (irArm1 now r1 s).isOverloaded = s.isOverloaded := by
  unfold irArm1; split <;> rfl

@[simp] lemma irArm1_overloadCount (now : Nat) (r1 : Bool) (s : BusState) :
    (irArm1 now r1 s).overloadCount = s.overloadCount := by
  unfold irArm1; split <;> rfl

@[simp] lemma irArm2_passengerCount (now : Nat) (r2 : Bool) (s : BusState) :
    (irArm2 now r2 s).passengerCount = s.passengerCount := by
  unfold irArm2; split <;> rfl

@[simp] lemma irArm2_cards (now : Nat) (r2 : Bool) (s : BusState) :
    (irArm2 now r2 s).cards = s.cards := by
  unfold irArm2; split <;> rfl

@[simp] lemma irArm2_hasRotated (now : Nat) (r2 : Bool) (s : BusState) :
    (irArm2 now r2 s).hasRotated = s.hasRotated := by
  unfold irArm2; split <;> rfl

@[simp] lemma irArm2_servoOpen (now : Nat) (r2 : Bool) (s : BusState) :
    (irArm2 now r2 s).servoOpen = s.servoOpen := by
  unfold irArm2; split <;> rfl

@[simp] lemma irArm2_servoPos (now : Nat) (r2 : Bool) (s : BusState) :
    (irArm2 now r2 s).servoPos = s.servoPos := by
  unfold irArm2; split <;> rfl

@[simp] lemma irArm2_lastMessageTime (now : Nat) (r2 : Bool) (s : BusState) :
    (irArm2 now r2 s).lastMessageTime = s.lastMessageTime := by
  unfold irArm2; split <;> rfl

@[simp] lemma irArm2_emergencyMode (now : Nat) (r2 : Bool) (s : BusState) :
    (irArm2 now r2 s).emergencyMode = s.emergencyMode := by
  unfold irArm2; split <;> rfl

@[simp] lemma irArm2_emergencyPressCount (now : Nat) (r2 : Bool) (s : BusState) :
    (irArm2 now r2 s).emergencyPressCount = s.emergencyPressCount := by
  unfold irArm2; split <;> rfl

@[simp] lemma irArm2_isOverloaded (now : Nat) (r2 : Bool) (s : BusState) :
    (irArm2 now r2 s).isOverloaded = s.isOverloaded := by
  unfold irArm2; split <;> rfl

@[simp] lemma irArm2_overloadCount (now : Nat) (r2 : Bool) (s : BusState) :
    (irArm2 now r2 s).overloadCount = s.overloadCount := by
  unfold irArm2; split <;> rfl

@[simp] lemma irAbandon_passengerCount (now : Nat) (s : BusState) :
    (irAbandon now s).passengerCount = s.passengerCount := by
  unfold irAbandon; split <;> rfl

@[simp] lemma irAbandon_cards (now : Nat) (s : BusState) :
    (irAbandon now s).cards = s.cards := by
  unfold irAbandon; split <;> rfl

@[simp] lemma irAbandon_hasRotated (now : Nat) (s : BusState) :
    (irAbandon now s).hasRotated = s.hasRotated := by
  unfold irAbandon; split <;> rfl

@[simp] lemma irAbandon_servoOpen (now : Nat) (s : BusState) :
    (irAbandon now s).servoOpen = s.servoOpen := by
  unfold irAbandon; split <;> rfl

@[simp] lemma irAbandon_servoPos (now : Nat) (s : BusState) :
    (irAbandon now s).servoPos = s.servoPos := by
  unfold irAbandon; split <;> rfl

@[simp] lemma irAbandon_lastMessageTime (now : Nat) (s : BusState) :
    (irAbandon now s).lastMessageTime = s.lastMessageTime := by
  unfold irAbandon; split <;> rfl

@[simp] lemma irAbandon_emergencyMode (now : Nat) (s : BusState) :
    (irAbandon now s).emergencyMode = s.emergencyMode := by
  unfold irAbandon; split <;> rfl

@[simp] lemma irAbandon_emergencyPressCount (now : Nat) (s : BusState) :
    (irAbandon now s).emergencyPressCount = s.emergencyPressCount := by
  unfold irAbandon; split <;> rfl

@[simp] lemma irAbandon_isOverloaded (now : Nat) (s : BusState) :
    (irAbandon now s).isOverloaded = s.isOverloaded := by
  unfold irAbandon; split <;> rfl

@[simp] lemma irAbandon_overloadCount (now : Nat) (s : BusState) :
    (irAbandon now s).overloadCount = s.overloadCount := by
  unfold irAbandon; split <;> rfl

@[simp] lemma irEntry_cards (now : Nat) (r2 : Bool) (s : BusState) (o : CycleOutput) :
    (irEntry now r2 s o).1.cards = s.cards := by
  unfold irEntry; split <;> simp

@[simp] lemma irEntry_hasRotated (now : Nat) (r2 : Bool) (s : BusState) (o : CycleOutput) :
    (irEntry now r2 s o).1.hasRotated = s.hasRotated := by
  unfold irEntry; split <;> simp

@[simp] lemma irEntry_servoOpen (now : Nat) (r2 : Bool) (s : BusState) (o : CycleOutput) :
    (irEntry now r2 s o).1.servoOpen = s.servoOpen := by
  unfold irEntry; split <;> simp

@[simp] lemma irEntry_servoPos (now : Nat) (r2 : Bool) (s : BusState) (o : CycleOutput) :
    (irEntry now r2 s o).1.servoPos = s.servoPos := by
  unfold irEntry; split <;> simp

@[simp] lemma irEntry_lastMessageTime (now : Nat) (r2 : Bool) (s : BusState) (o : CycleOutput) :
    (irEntry now r2 s o).1.lastMessageTime = s.lastMessageTime := by
  unfold irEntry; split <;> simp

@[simp] lemma irEntry_emergencyMode (now : Nat) (r2 : Bool) (s : BusState) (o : CycleOutput) :
    (irEntry now r2 s o).1.emergencyMode = s.emergencyMode := by
  unfold irEntry; split <;> simp

@[simp] lemma irEntry_emergencyPressCount (now : Nat) (r2 : Bool) (s : BusState) (o : CycleOutput) :
    (irEntry now r2 s o).1.emergencyPressCount = s.emergencyPressCount := by
  unfold irEntry; split <;> simp

@[simp] lemma irEntry_adminLines (now : Nat) (r2 : Bool) (s : BusState) (o : CycleOutput) :
    (irEntry now r2 s o).2.adminLines = o.adminLines := by
  unfold irEntry; split <;> simp

@[simp] lemma irEntry_blockedReports (now : Nat) (r2 : Bool) (s : BusState) (o : CycleOutput) :
    (irEntry now r2 s o).2.blockedReports = o.blockedReports := by
  unfold irEntry; split <;> simp

@[simp] lemma irEntry_deniedEvents (now : Nat) (r2 : Bool) (s : BusState) (o : CycleOutput) :
    (irEntry now r2 s o).2.deniedEvents = o.deniedEvents := by
  unfold irEntry; split <;> simp

@[simp] lemma irExit_cards (now : Nat) (r1 : Bool) (s : BusState) (o : CycleOutput) :
    (irExit now r1 s o).1.cards = s.cards := by
  unfold irExit; split <;> simp

@[simp] lemma irExit_hasRotated (now : Nat) (r1 : Bool) (s : BusState) (o : CycleOutput) :
    (irExit now r1 s o).1.hasRotated = s.hasRotated := by
  unfold irExit; split <;> simp

@[simp] lemma irExit_servoOpen (now : Nat) (r1 : Bool) (s : BusState) (o : CycleOutput) :
    (irExit now r1 s o).1.servoOpen = s.servoOpen := by
  unfold irExit; split <;> simp

@[simp] lemma irExit_servoPos (now : Nat) (r1 : Bool) (s : BusState) (o : CycleOutput) :
    (irExit now r1 s o).1.servoPos = s.servoPos := by
  unfold irExit; split <;> simp

@[simp] lemma irExit_lastMessageTime (now : Nat) (r1 : Bool) (s : BusState) (o : CycleOutput) :
    (irExit now r1 s o).1.lastMessageTime = s.lastMessageTime := by
  unfold irExit; split <;> simp

@[simp] lemma irExit_emergencyMode (now : Nat) (r1 : Bool) (s : BusState) (o : CycleOutput) :
    (irExit now r1 s o).1.emergencyMode = s.emergencyMode := by
  unfold irExit; split <;> simp

@[simp] lemma irExit_emergencyPressCount (now : Nat) (r1 : Bool) (s : BusState) (o : CycleOutput) :
    (irExit now r1 s o).1.emergencyPressCount = s.emergencyPressCount := by
  unfold irExit; split <;> simp

@[simp] lemma irExit_adminLines (now : Nat) (r1 : Bool) (s : BusState) (o : CycleOutput) :
    (irExit now r1 s o).2.adminLines = o.adminLines := by
  unfold irExit; split <;> simp

@[simp] lemma irExit_blockedReports (now : Nat) (r1 : Bool) (s : BusState) (o : CycleOutput) :
    (irExit now r1 s o).2.blockedReports = o.blockedReports := by
  unfold irExit; split <;> simp

@[simp] lemma irExit_deniedEvents (now : Nat) (r1 : Bool) (s : BusState) (o : CycleOutput) :
    (irExit now r1 s o).2.deniedEvents = o.deniedEvents := by
  unfold irExit; split <;> simp

lemma irEntry_pc_nonneg (now : Nat) (r2 : Bool) (s : BusState) (o : CycleOutput)
    (h : 0 ≤ s.passengerCount) :
    0 ≤ (irEntry now r2 s o).1.passengerCount := by
  unfold irEntry; split
  · simp; omega
  · exact h

lemma irExit_pc_nonneg (now : Nat) (r1 : Bool) (s : BusState) (o : CycleOutput)
    (h : 0 ≤ s.passengerCount) :
    0 ≤ (irExit now r1 s o).1.passengerCount := by
  unfold irExit; split
  · simp; split <;> omega
  · exact h

lemma irEntry_latchOK (now : Nat) (r2 : Bool) (s : BusState) (o : CycleOutput)
    (h : latchOK s) :
    latchOK (irEntry now r2 s o).1 := by
  unfold irEntry; split
  · unfold latchOK; simp [updateLCD_isOverloaded]
  · exact h

lemma irExit_latchOK (now : Nat) (r1 : Bool) (s : BusState) (o : CycleOutput)
    (h : latchOK s) :
    latchOK (irExit now r1 s o).1 := by
  unfold irExit; split
  · unfold latchOK; simp [updateLCD_isOverloaded]
  · exact h

lemma irEntry_settleDelays_append (now : Nat) (r2 : Bool) (s : BusState) (o : CycleOutput) :
    ∃ t, (irEntry now r2 s o).2.settleDelays = o.settleDelays ++ t := by
  unfold irEntry; split
  · exact ⟨[IR_DEBOUNCE_MS], by simp⟩
  · exact ⟨[], by simp⟩

lemma irExit_settleDelays_append (now : Nat) (r1 : Bool) (s : BusState) (o : CycleOutput) :
    ∃ t, (irExit now r1 s o).2.settleDelays = o.settleDelays ++ t := by
  unfold irExit; split
  · exact ⟨[IR_DEBOUNCE_MS], by simp⟩
  · exact ⟨[], by simp⟩

/-- The entry-completion branch taken: explicit result. -/
lemma irEntry_taken (now : Nat) (s : BusState) (o : CycleOutput)
    (hA : s.ir1Triggered = true) (hW : now - s.lastTriggerTime < SEQ_TIMEOUT_MS) :
    irEntry now true s o =
      ({ updateLCD now { s with passengerCount := s.passengerCount + 1 } with
           ir1Triggered := false, ir2Triggered := false },
       { o with entryEvents := o.entryEvents + 1,
                settleDelays := o.settleDelays ++ [IR_DEBOUNCE_MS] }) := by
  unfold irEntry; simp [hA, hW]

/-- The exit-completion branch taken: explicit result with the guarded
decrement. -/
lemma irExit_taken (now : Nat) (s : BusState) (o : CycleOutput)
    (hA : s.ir2Triggered = true) (hW : now - s.lastTriggerTime < SEQ_TIMEOUT_MS) :
    irExit now true s o =
      ({ updateLCD now { s with passengerCount :=
             if 0 < s.passengerCount then s.passengerCount - 1 else s.passengerCount } with
           ir1Triggered := false, ir2Triggered := false },
       { o with exitEvents := o.exitEvents + 1,
                settleDelays := o.settleDelays ++ [IR_DEBOUNCE_MS] }) := by
  unfold irExit; simp [hA, hW]

lemma irArm1_taken (now : Nat) (s : BusState)
    (h1 : s.ir1Triggered = false) (h2 : s.ir2Triggered = false) :
    irArm1 now true s = { s with ir1Triggered := true, lastTriggerTime := now } := by
  unfold irArm1; simp [h1, h2]

lemma irArm1_skip (now : Nat) (r1 : Bool) (s : BusState)
    (h2 : s.ir2Triggered = true) :
    irArm1 now r1 s = s := by
  unfold irArm1; simp [h2]

lemma irArm2_taken (now : Nat) (s : BusState)
    (h1 : s.ir1Triggered = false) (h2 : s.ir2Triggered = false) :
    irArm2 now true s = { s with ir2Triggered := true, lastTriggerTime := now } := by
  unfold irArm2; simp [h1, h2]

lemma irArm2_skipR (now : Nat) (s : BusState) :
    irArm2 now false s = s := by
  unfold irArm2; simp

lemma irEntry_skipR (now : Nat) (s : BusState) (o : CycleOutput)
    (hA : s.ir1Triggered = false) :
    irEntry now false s o = (s, o) := by
  unfold irEntry; simp [hA]

lemma irAbandon_clear (now : Nat) (s : BusState)
    (h1 : s.ir1Triggered = false) (h2 : s.ir2Triggered = false) :
    irAbandon now s = s := by
  unfold irAbandon; simp [h1, h2]

@[simp] lemma irEntry_toneFired (now : Nat) (r2 : Bool) (s : BusState) (o : CycleOutput) :
    (irEntry now r2 s o).2.toneFired = o.toneFired := by
  unfold irEntry; split <;> simp

@[simp] lemma irExit_toneFired (now : Nat) (r1 : Bool) (s : BusState) (o : CycleOutput) :
    (irExit now r1 s o).2.toneFired = o.toneFired := by
  unfold irExit; split <;> simp

@[simp] lemma irPhase_cards (now : Nat) (r1 r2 : Bool) (s : BusState) (o : CycleOutput) :
    (irPhase now r1 r2 s o).1.cards = s.cards := by
  unfold irPhase; simp

@[simp] lemma irPhase_hasRotated (now : Nat) (r1 r2 : Bool) (s : BusState) (o : CycleOutput) :
    (irPhase now r1 r2 s o).1.hasRotated = s.hasRotated := by
  unfold irPhase; simp

@[simp] lemma irPhase_servoOpen (now : Nat) (r1 r2 : Bool) (s : BusState) (o : CycleOutput) :
    (irPhase now r1 r2 s o).1.servoOpen = s.servoOpen := by
  unfold irPhase; simp

@[simp] lemma irPhase_servoPos (now : Nat) (r1 r2 : Bool) (s : BusState) (o : CycleOutput) :
    (irPhase now r1 r2 s o).1.servoPos = s.servoPos := by
  unfold irPhase; simp

@[simp] lemma irPhase_lastMessageTime (now : Nat) (r1 r2 : Bool) (s : BusState) (o : CycleOutput) :
    (irPhase now r1 r2 s o).1.lastMessageTime = s.lastMessageTime := by
  unfold irPhase; simp

@[simp] lemma irPhase_emergencyMode (now : Nat) (r1 r2 : Bool) (s : BusState) (o : CycleOutput) :
    (irPhase now r1 r2 s o).1.emergencyMode = s.emergencyMode := by
  unfold irPhase; simp

@[simp] lemma irPhase_emergencyPressCount (now : Nat) (r1 r2 : Bool) (s : BusState) (o : CycleOutput) :
    (irPhase now r1 r2 s o).1.emergencyPressCount = s.emergencyPressCount := by
  unfold irPhase; simp

@[simp] lemma irPhase_adminLines (now : Nat) (r1 r2 : Bool) (s : BusState) (o : CycleOutput) :
    (irPhase now r1 r2 s o).2.adminLines = o.adminLines := by
  unfold irPhase; simp

@[simp] lemma irPhase_blockedReports (now : Nat) (r1 r2 : Bool) (s : BusState) (o : CycleOutput) :
    (irPhase now r1 r2 s o).2.blockedReports = o.blockedReports := by
  unfold irPhase; simp

@[simp] lemma irPhase_deniedEvents (now : Nat) (r1 r2 : Bool) (s : BusState) (o : CycleOutput) :
    (irPhase now r1 r2 s o).2.deniedEvents = o.deniedEvents := by
  unfold irPhase; simp

@[simp] lemma irPhase_toneFired (now : Nat) (r1 r2 : Bool) (s : BusState) (o : CycleOutput) :
    (irPhase now r1 r2 s o).2.toneFired = o.toneFired := by
  unfold irPhase; simp

/-! #### Composed lemmas for `irPhase` -/

lemma irPhase_frame (now : Nat) (r1 r2 : Bool) (s : BusState) (o : CycleOutput) :
    (irPhase now r1 r2 s o).1.cards = s.cards ∧
    (irPhase now r1 r2 s o).1.hasRotated = s.hasRotated ∧
    (irPhase now r1 r2 s o).1.servoOpen = s.servoOpen ∧
    (irPhase now r1 r2 s o).1.servoPos = s.servoPos ∧
    (irPhase now r1 r2 s o).1.lastMessageTime = s.lastMessageTime ∧
    (irPhase now r1 r2 s o).1.emergencyMode = s.emergencyMode ∧
    (irPhase now r1 r2 s o).1.emergencyPressCount = s.emergencyPressCount ∧
    (irPhase now r1 r2 s o).2.adminLines = o.adminLines ∧
    (irPhase now r1 r2 s o).2.blockedReports = o.blockedReports ∧
    (irPhase now r1 r2 s o).2.deniedEvents = o.deniedEvents := by
  unfold irPhase
  simp

lemma irPhase_pc_nonneg (now : Nat) (r1 r2 : Bool) (s : BusState) (o : CycleOutput)
    (h : 0 ≤ s.passengerCount) :
    0 ≤ (irPhase now r1 r2 s o).1.passengerCount := by
  unfold irPhase
  simp only [irAbandon_passengerCount]
  apply irExit_pc_nonneg
  simp only [irArm2_passengerCount]
  apply irEntry_pc_nonneg
  simp only [irArm1_passengerCount]
  exact h

lemma irPhase_latchOK (now : Nat) (r1 r2 : Bool) (s : BusState) (o : CycleOutput)
    (h : latchOK s) :
    latchOK (irPhase now r1 r2 s o).1 := by
  unfold irPhase
  have h1 : latchOK (irArm1 now r1 s) := by
    unfold latchOK at *; simp [h]
  have h2 := irEntry_latchOK now r2 (irArm1 now r1 s) o h1
  have h3 : latchOK (irArm2 now r2 (irEntry now r2 (irArm1 now r1 s) o).1) := by
    unfold latchOK at *; simp [h2]
  have h4 := irExit_latchOK now r1 _ (irEntry now r2 (irArm1 now r1 s) o).2 h3
  unfold latchOK at *; simp [h4]

lemma irPhase_settleDelays_append (now : Nat) (r1 r2 : Bool)
    (s : BusState) (o : CycleOutput) :
    ∃ t, (irPhase now r1 r2 s o).2.settleDelays = o.settleDelays ++ t := by
  unfold irPhase
  obtain ⟨t1, h1⟩ := irEntry_settleDelays_append now r2 (irArm1 now r1 s) o
  obtain ⟨t2, h2⟩ :=
    irExit_settleDelays_append now r1 (irArm2 now r2 (irEntry now r2 (irArm1 now r1 s) o).1)
      (irEntry now r2 (irArm1 now r1 s) o).2
  exact ⟨t1 ++ t2, by rw [h2, h1, List.append_assoc]⟩

/-- Both sensors interrupted in the same poll with no sequence armed: the
pass records an entry immediately followed by an exit, leaving occupancy
net-unchanged and both sequence flags clear. -/
lemma irPhase_both_low (now : Nat) (s : BusState) (o : CycleOutput)
    (h1 : s.ir1Triggered = false) (h2 : s.ir2Triggered = false)
    (hpc : 0 ≤ s.passengerCount) :
    (irPhase now true true s o).1.passengerCount = s.passengerCount ∧
    (irPhase now true true s o).1.ir1Triggered = false ∧
    (irPhase now true true s o).1.ir2Triggered = false ∧
    (irPhase now true true s o).2.entryEvents = o.entryEvents + 1 ∧
    (irPhase now true true s o).2.exitEvents = o.exitEvents + 1 := by
  unfold irPhase
  rw [irArm1_taken now s h1 h2]
  rw [irEntry_taken now _ o rfl (by simp [SEQ_TIMEOUT_MS])]
  dsimp only
  rw [irArm2_taken now _ rfl rfl]
  dsimp only
  rw [irExit_taken now _ _ rfl (by dsimp only; simp [SEQ_TIMEOUT_MS])]
  dsimp only
  rw [irAbandon_clear now _ rfl rfl]
  refine ⟨?_, rfl, rfl, rfl, rfl⟩
  simp only [updateLCD_passengerCount]
  split <;> omega

/-- A validated exit crossing (exit armed, sensor 1 fires within the window,
sensor 2 clear) floors occupancy at zero: the result is `max (o - 1) 0`. -/
lemma irPhase_exit (now : Nat) (s : BusState) (o : CycleOutput)
    (h1 : s.ir1Triggered = false) (h2 : s.ir2Triggered = true)
    (hW : now - s.lastTriggerTime < SEQ_TIMEOUT_MS)
    (hpc : 0 ≤ s.passengerCount) :
    (irPhase now true false s o).1.passengerCount = max (s.passengerCount - 1) 0 ∧
    (irPhase now true false s o).1.ir1Triggered = false ∧
    (irPhase now true false s o).1.ir2Triggered = false ∧
    (irPhase now true false s o).2.exitEvents = o.exitEvents + 1 ∧
    (irPhase now true false s o).2.entryEvents = o.entryEvents := by
  unfold irPhase
  rw [irArm1_skip now true s h2]
  rw [irEntry_skipR now s o h1]
  dsimp only
  rw [irArm2_skipR now s]
  rw [irExit_taken now s o h2 hW]
  dsimp only
  rw [irAbandon_clear now _ rfl rfl]
  refine ⟨?_, rfl, rfl, rfl, rfl⟩
  simp only [updateLCD_passengerCount]
  split <;> omega

lemma checkAndCloseServo_fresh (now : Nat) (r1 r2 : Bool) (s : BusState) (o : CycleOutput)
    (h : ¬ (TIMEOUT_MS + GATE_BLOCK_CHECK_DELAY_MS < now - s.lastMessageTime)) :
    checkAndCloseServo now r1 r2 s o = (s, o) := by
  unfold checkAndCloseServo
  split
  · simp [h]
  · rfl

lemma checkAndCloseServo_notOpen (now : Nat) (r1 r2 : Bool) (s : BusState) (o : CycleOutput)
    (h : s.servoOpen = false) :
    checkAndCloseServo now r1 r2 s o = (s, o) := by
  unfold checkAndCloseServo
  simp [h]

/-- With either sensor interrupted the scan-path close branch cannot run:
the gate stays where it is. -/
lemma checkAndCloseServo_blocked (now : Nat) (r1 r2 : Bool) (s : BusState) (o : CycleOutput)
    (h : r1 = true ∨ r2 = true) :
    (checkAndCloseServo now r1 r2 s o).1.servoPos = s.servoPos ∧
    (checkAndCloseServo now r1 r2 s o).1.servoOpen = s.servoOpen ∧
    (checkAndCloseServo now r1 r2 s o).1.isOverloaded = s.isOverloaded ∧
    (checkAndCloseServo now r1 r2 s o).1.overloadCount = s.overloadCount := by
  have hcl : (!r1 && !r2) = false := by
    rcases h with h | h <;> simp [h]
  unfold checkAndCloseServo
  split
  · split
    · rw [hcl]; simp
    · simp
  · simp

/-- The obstruction hold of the scan-path close: stay open, report, and
re-arm the timeout reference. -/
lemma checkAndCloseServo_rearm (now : Nat) (r1 r2 : Bool) (s : BusState) (o : CycleOutput)
    (hOpen : s.servoOpen = true)
    (hStale : TIMEOUT_MS + GATE_BLOCK_CHECK_DELAY_MS < now - s.lastMessageTime)
    (hBlocked : (!r1 && !r2) = false) :
    checkAndCloseServo now r1 r2 s o =
      ({ s with lastMessageTime := now },
       { o with blockedReports := o.blockedReports + 1 }) := by
  unfold checkAndCloseServo
  simp [hOpen, hStale, hBlocked]

/-- When emergency mode is active after button handling, the whole rest of
the pass is skipped. -/
lemma loopStep_emergency (i : CycleInput) (s : BusState)
    (h : (handleEmergencyButton i.now i.buttonHigh s).1.emergencyMode = true) :
    loopStep i s = ((handleEmergencyButton i.now i.buttonHigh s).1,
      { emptyOutput with toneFired := (handleEmergencyButton i.now i.buttonHigh s).2 }) := by
  unfold loopStep
  simp [h]

/-- When the handler leaves emergency mode active, its timeout branch (the
only part that runs `updateLCD`) cannot have run, so the alarm-latch and
scan bookkeeping fields are untouched. -/
lemma handleEmergencyButton_active_frame (now : Nat) (b : Bool) (s : BusState)
    (h : (handleEmergencyButton now b s).1.emergencyMode = true) :
    (handleEmergencyButton now b s).1.overloadCount = s.overloadCount ∧
    (handleEmergencyButton now b s).1.isOverloaded = s.isOverloaded ∧
    (handleEmergencyButton now b s).1.buzzerOn = s.buzzerOn := by
  unfold handleEmergencyButton at h ⊢
  by_cases hEdge : (!b && s.lastButtonState) = true
  · simp [hEdge, Nat.sub_self]
  · simp only [hEdge, Bool.false_eq_true, if_false] at h ⊢
    by_cases hT : EMERGENCY_TIMEOUT_MS < now - s.lastEmergencyTime
    · split at h
      · simp at h
      · rename_i hn
        exact absurd ⟨by simpa using h, hT⟩ hn
    · simp [hT]

/-- Emergency mode off after button handling propagates to the end of the
pass: no later phase touches it. -/
lemma loopStep_emergencyMode_off (i : CycleInput) (s : BusState)
    (h : (handleEmergencyButton i.now i.buttonHigh s).1.emergencyMode = false) :
    (loopStep i s).1.emergencyMode = false := by
  unfold loopStep
  simp [h]

/-! ### Spec-side wire-format definitions (for the refinement claim C1) -/

/-- Modelled from the spec: the claimed wire line
`D:<occupancy>,<pressCount>,<overloadCount>` followed by one
`,<name>,<scanCount>` pair per registered token that has been used this
session (`scanCount > 0`), in registry order, and for no other token. -/
def specAdminLineUsed (s : BusState) : String :=
  "D:" ++ toString s.passengerCount ++ "," ++ toString s.emergencyPressCount
    ++ "," ++ toString s.overloadCount
    ++ String.join ((s.cards.filter fun c => decide (0 < c.scanCount)).map
        fun c => "," ++ c.name ++ "," ++ toString c.scanCount)

/-- Modelled from the spec, amended: one `,<name>,<scanCount>` pair per
registered token — used or not — in registry order, and for no other
token. -/
def specAdminLineAll (s : BusState) : String :=
  "D:" ++ toString s.passengerCount ++ "," ++ toString s.emergencyPressCount
    ++ "," ++ toString s.overloadCount
    ++ String.join (s.cards.map fun c => "," ++ c.name ++ "," ++ toString c.scanCount)

lemma stringJoin_cons (a : String) (l : List String) :
    String.join (a :: l) = a ++ String.join l := by
  apply String.ext
  simp [String.data_join, String.data_append]

lemma foldl_strcat (f : RegisteredCard → String) :
    ∀ (l : List RegisteredCard) (init : String),
      l.foldl (fun acc c => acc ++ f c) init = init ++ String.join (l.map f)
  | [], init => by
    rw [List.foldl_nil, List.map_nil, show String.join [] = "" from rfl,
      String.append_empty]
  | c :: rest, init => by
    rw [List.foldl_cons, foldl_strcat f rest (init ++ f c), List.map_cons,
      stringJoin_cons, String.append_assoc]

/-! ### Claim theorems -/

/-- C1 counterexample: with a single registered, never-used token the sketch
transmits `D:0,0,0,HELPER,0`, while the claimed format (pairs only for
tokens with `scanCount > 0`) would be `D:0,0,0`; the transmitted line
therefore differs from the claimed one. -/
theorem sendAdminData_counterexample :
    sendAdminData (initBusState
        [{ uid := [25, 120, 151, 63], name := "HELPER", scanCount := 0 }]) =
      "D:0,0,0,HELPER,0" ∧
    specAdminLineUsed (initBusState
        [{ uid := [25, 120, 151, 63], name := "HELPER", scanCount := 0 }]) =
      "D:0,0,0" ∧
    sendAdminData (initBusState
        [{ uid := [25, 120, 151, 63], name := "HELPER", scanCount := 0 }]) ≠
      specAdminLineUsed (initBusState
        [{ uid := [25, 120, 151, 63], name := "HELPER", scanCount := 0 }]) := by
  refine ⟨by decide, by decide, by decide⟩

/-- C1 (amended): every transmission of an `AdminSnapshot` is the ASCII line
`D:<occupancy>,<pressCount>,<overloadCount>` followed by one
`,<name>,<scanCount>` pair for each registered token — whether or not it has
been used this session — in registry order, and for no other token. -/
theorem sendAdminData_wire_format (s : BusState) :
    sendAdminData s = specAdminLineAll s := by
  unfold sendAdminData specAdminLineAll
  exact foldl_strcat _ s.cards _

/-- C9: boot-time registry loading. With a matching marker and a stored
count within capacity the previously stored token set is returned (scan
counts reset) and the store is untouched; with a mismatched marker the
store is seeded with the factory set and the marker is written; with a
matching marker but an out-of-range count the in-memory registry is clamped
to empty and the store is not rewritten. -/
theorem eeprom_load_contract :
    (∀ e : EEPROMState, e.magic = MAGIC_VALUE → e.numCards ≤ MAX_REGISTERED_CARDS →
      (setup e).1 = e ∧
      (setup e).2.cards = (e.slots.take e.numCards).map
        fun c => { uid := c.uid, name := c.name, scanCount := 0 }) ∧
    (∀ e : EEPROMState, e.magic ≠ MAGIC_VALUE →
      (setup e).1.magic = MAGIC_VALUE ∧
      (setup e).1.numCards = predefinedUsers.length ∧
      (setup e).2.cards = predefinedUsers.map
        fun c => { uid := c.uid, name := c.name, scanCount := 0 }) ∧
    (∀ e : EEPROMState, e.magic = MAGIC_VALUE → MAX_REGISTERED_CARDS < e.numCards →
      (setup e).1 = e ∧ (setup e).2.cards = []) := by
  have loadOk : ∀ e : EEPROMState, e.numCards ≤ MAX_REGISTERED_CARDS →
      loadCardsFromEEPROM e = (e.slots.take e.numCards).map
        (fun c => { uid := c.uid, name := c.name, scanCount := 0 }) := by
    intro e h
    unfold loadCardsFromEEPROM
    rw [if_neg (by omega)]
  have loadBad : ∀ e : EEPROMState, MAX_REGISTERED_CARDS < e.numCards →
      loadCardsFromEEPROM e = [] := by
    intro e h
    unfold loadCardsFromEEPROM
    rw [if_pos (Or.inl h)]
  refine ⟨?_, ?_, ?_⟩
  · intro e hMagic hCount
    constructor
    · simp [setup, hMagic]
    · have hc : (setup e).2.cards = loadCardsFromEEPROM e := by
        simp [setup, hMagic, initBusState]
      rw [hc, loadOk e hCount]
  · intro e hMagic
    have hm : (setup e).1 = { writePredefinedCardsToEEPROM e with magic := MAGIC_VALUE } := by
      simp [setup, hMagic]
    have hc : (setup e).2.cards =
        loadCardsFromEEPROM { writePredefinedCardsToEEPROM e with magic := MAGIC_VALUE } := by
      simp [setup, hMagic, initBusState]
    refine ⟨by rw [hm], by rw [hm]; simp [writePredefinedCardsToEEPROM], ?_⟩
    rw [hc, loadOk _ (by simp [writePredefinedCardsToEEPROM, predefinedUsers,
      MAX_REGISTERED_CARDS])]
    simp [writePredefinedCardsToEEPROM, predefinedUsers]
  · intro e hMagic hCount
    constructor
    · simp [setup, hMagic]
    · have hc : (setup e).2.cards = loadCardsFromEEPROM e := by
        simp [setup, hMagic, initBusState]
      rw [hc, loadBad e hCount]

/-- C9 witness: the three branches at concrete EEPROM contents. -/
theorem eeprom_load_contract_witness :
    (setup ⟨MAGIC_VALUE, 1, [⟨[1, 2], "OPERATOR"⟩, ⟨[3], "SPARE"⟩]⟩).1 =
        ⟨MAGIC_VALUE, 1, [⟨[1, 2], "OPERATOR"⟩, ⟨[3], "SPARE"⟩]⟩ ∧
    (setup ⟨MAGIC_VALUE, 1, [⟨[1, 2], "OPERATOR"⟩, ⟨[3], "SPARE"⟩]⟩).2.cards =
        [{ uid := [1, 2], name := "OPERATOR", scanCount := 0 }] ∧
    (setup ⟨0, 0, []⟩).1.magic = MAGIC_VALUE ∧
    (setup ⟨MAGIC_VALUE, 9, []⟩).1 = ⟨MAGIC_VALUE, 9, []⟩ ∧
    (setup ⟨MAGIC_VALUE, 9, []⟩).2.cards = [] := by
  have h1 := eeprom_load_contract.1 ⟨MAGIC_VALUE, 1, [⟨[1, 2], "OPERATOR"⟩, ⟨[3], "SPARE"⟩]⟩
    rfl (by decide)
  have h2 := eeprom_load_contract.2.1 ⟨0, 0, []⟩ (by decide)
  have h3 := eeprom_load_contract.2.2 ⟨MAGIC_VALUE, 9, []⟩ rfl (by decide)
  exact ⟨h1.1, by rw [h1.2]; decide, h2.1, h3.1, h3.2⟩

/-- C7: a panic press edge activates emergency mode, increments the press
counter, fires the confirmation tone and stamps the activation time; while
the mode is active after button handling the whole pass is suspended (state
outside the emergency fields unchanged, no events emitted); the mode
persists at any poll within the 5000 ms window and reverts automatically at
the first poll after it (absent a new press edge), after which normal
evaluation resumes. -/
theorem emergency_window :
    (∀ (i : CycleInput) (s : BusState), i.buttonHigh = false → s.lastButtonState = true →
      (handleEmergencyButton i.now i.buttonHigh s).1.emergencyMode = true ∧
      (handleEmergencyButton i.now i.buttonHigh s).1.emergencyPressCount =
        s.emergencyPressCount + 1 ∧
      (handleEmergencyButton i.now i.buttonHigh s).2 = true ∧
      (handleEmergencyButton i.now i.buttonHigh s).1.lastEmergencyTime = i.now) ∧
    (∀ (i : CycleInput) (s : BusState),
      (handleEmergencyButton i.now i.buttonHigh s).1.emergencyMode = true →
      (loopStep i s).1 = (handleEmergencyButton i.now i.buttonHigh s).1 ∧
      (loopStep i s).1.passengerCount = s.passengerCount ∧
      (loopStep i s).1.cards = s.cards ∧
      (loopStep i s).1.hasRotated = s.hasRotated ∧
      (loopStep i s).1.servoOpen = s.servoOpen ∧
      (loopStep i s).1.servoPos = s.servoPos ∧
      (loopStep i s).1.overloadCount = s.overloadCount ∧
      (loopStep i s).2.adminLines = [] ∧
      (loopStep i s).2.entryEvents = 0 ∧
      (loopStep i s).2.exitEvents = 0 ∧
      (loopStep i s).2.servoWrites = [] ∧
      (loopStep i s).2.settleDelays = []) ∧
    (∀ (i : CycleInput) (s : BusState), s.emergencyMode = true →
      i.now - s.lastEmergencyTime ≤ EMERGENCY_TIMEOUT_MS →
      (loopStep i s).1.emergencyMode = true) ∧
    (∀ (i : CycleInput) (s : BusState), s.emergencyMode = true →
      (!i.buttonHigh && s.lastButtonState) = false →
      EMERGENCY_TIMEOUT_MS < i.now - s.lastEmergencyTime →
      (loopStep i s).1.emergencyMode = false) := by
  refine ⟨?_, ?_, ?_, ?_⟩
  · intro i s hb hB
    rw [hb, handleEmergencyButton_press i.now s hB]
    exact ⟨rfl, rfl, rfl, rfl⟩
  · intro i s h
    have heq := loopStep_emergency i s h
    obtain ⟨f1, f2, f3, f4, f5, f6, f7, f8, f9⟩ :=
      handleEmergencyButton_frame i.now i.buttonHigh s
    obtain ⟨g1, g2, g3⟩ := handleEmergencyButton_active_frame i.now i.buttonHigh s h
    rw [heq]
    exact ⟨rfl, f1, f2, f6, f7, f8, g1, rfl, rfl, rfl, rfl, rfl⟩
  · intro i s hM hW
    have h := handleEmergencyButton_stay i.now i.buttonHigh s hM hW
    rw [loopStep_emergency i s h]
    exact h
  · intro i s hM hE hW
    exact loopStep_emergencyMode_off i s
      (handleEmergencyButton_expire i.now i.buttonHigh s hM hE hW)

/-- C7 witness: press at time 0 from the boot state; then, with the mode
active since time 0, a quiet poll at 100 ms stays active with the pass
suspended, and a quiet poll at 6000 ms reverts to inactive. -/
theorem emergency_window_witness :
    (handleEmergencyButton 0 false (initBusState [])).1.emergencyMode = true ∧
    (handleEmergencyButton 0 false (initBusState [])).1.emergencyPressCount = 1 ∧
    (loopStep ⟨100, true, none, none, false, false⟩
        { initBusState [] with emergencyMode := true }).1.emergencyMode = true ∧
    (loopStep ⟨100, true, none, none, false, false⟩
        { initBusState [] with emergencyMode := true }).1.passengerCount = 0 ∧
    (loopStep ⟨6000, true, none, none, false, false⟩
        { initBusState [] with emergencyMode := true }).1.emergencyMode = false := by
  have h1 := emergency_window.1 ⟨0, false, none, none, false, false⟩ (initBusState [])
    rfl rfl
  have h2 := emergency_window.2.1 ⟨100, true, none, none, false, false⟩
    { initBusState [] with emergencyMode := true } (by decide)
  have h3 := emergency_window.2.2.1 ⟨100, true, none, none, false, false⟩
    { initBusState [] with emergencyMode := true } rfl (by decide)
  have h4 := emergency_window.2.2.2 ⟨6000, true, none, none, false, false⟩
    { initBusState [] with emergencyMode := true } rfl (by decide) (by decide)
  exact ⟨h1.1, h1.2.1, h3, h2.2.1, h4⟩

/-! ### Occupancy and latch invariants across a whole pass -/

lemma loopStep_pc_nonneg (i : CycleInput) (s : BusState)
    (hpc : 0 ≤ s.passengerCount) :
    0 ≤ (loopStep i s).1.passengerCount := by
  obtain ⟨hf1, hf2, hf3, hf4, hf5, hf6, hf7, hf8, hf9⟩ :=
    handleEmergencyButton_frame i.now i.buttonHigh s
  unfold loopStep
  by_cases hEm : (handleEmergencyButton i.now i.buttonHigh s).1.emergencyMode = true
  · simp [hEm, hf1, hpc]
  · simp only [Bool.not_eq_true] at hEm
    simp only [hEm, Bool.false_eq_true, if_false]
    simp only [checkAndCloseServo_passengerCount, buzzerPhase_passengerCount]
    apply irPhase_pc_nonneg
    simp [hf1, hpc]

lemma serialPhase_latchOK (now : Nat) (line : Option String) (s : BusState)
    (o : CycleOutput) (h : latchOK s) :
    latchOK (serialPhase now line s o).1 := by
  unfold latchOK at *
  simp [h]

lemma btTimeoutPhase_latchOK (now : Nat) (r1 r2 : Bool) (s : BusState)
    (o : CycleOutput) (h : latchOK s) :
    latchOK (btTimeoutPhase now r1 r2 s o).1 := by
  unfold btTimeoutPhase
  split
  · split
    · split
      · split
        · unfold latchOK
          simp [updateLCD_isOverloaded]
        · exact h
      · exact h
    · exact h
  · exact h

lemma rfidPhase_latchOK (now : Nat) (scan : Option (List Nat)) (s : BusState)
    (o : CycleOutput) (h : latchOK s) :
    latchOK (rfidPhase now scan s o).1 := by
  unfold latchOK at *
  simp [h]

lemma buzzerPhase_latchOK (now : Nat) (s : BusState) (o : CycleOutput)
    (h : latchOK s) :
    latchOK (buzzerPhase now s o).1 := by
  unfold latchOK at *
  simp [h]

lemma checkAndCloseServo_latchOK (now : Nat) (r1 r2 : Bool) (s : BusState)
    (o : CycleOutput) (h : latchOK s) :
    latchOK (checkAndCloseServo now r1 r2 s o).1 := by
  unfold checkAndCloseServo
  split
  · split
    · split
      · unfold latchOK
        simp [updateLCD_isOverloaded]
      · exact h
    · exact h
  · exact h

lemma handleEmergencyButton_latchOK (now : Nat) (b : Bool) (s : BusState)
    (h : latchOK s) :
    latchOK (handleEmergencyButton now b s).1 := by
  unfold handleEmergencyButton
  unfold latchOK at *
  by_cases hEdge : (!b && s.lastButtonState) = true <;>
    simp only [hEdge, Bool.false_eq_true, if_true, if_false] <;>
    split <;> simp [updateLCD_isOverloaded, h]

lemma loopStep_latchOK (i : CycleInput) (s : BusState) (h : latchOK s) :
    latchOK (loopStep i s).1 := by
  unfold loopStep
  have h0 := handleEmergencyButton_latchOK i.now i.buttonHigh s h
  by_cases hEm : (handleEmergencyButton i.now i.buttonHigh s).1.emergencyMode = true
  · simpa [hEm] using h0
  · simp only [Bool.not_eq_true] at hEm
    simp only [hEm, Bool.false_eq_true, if_false]
    exact checkAndCloseServo_latchOK _ _ _ _ _
      (buzzerPhase_latchOK _ _ _
        (irPhase_latchOK _ _ _ _ _
          (rfidPhase_latchOK _ _ _ _
            (btTimeoutPhase_latchOK _ _ _ _ _
              (serialPhase_latchOK _ _ _ _ h0)))))

/-! ### Scenario traces (spec §8): repeated A-then-B entry crossings -/

/-- One clean entry crossing as three polls: sensor A fires, sensor B fires
100 ms later (completing the entry; sensor B still low also re-arms the
exit sequence, exactly as the code does), then a quiet poll 1100 ms later
lets the stale exit arm time out. -/
def entryTriple (k : Nat) : List CycleInput :=
  [ ⟨2000 * k, true, none, none, true, false⟩,
    ⟨2000 * k + 100, true, none, none, false, true⟩,
    ⟨2000 * k + 1200, true, none, none, false, false⟩ ]

/-- Build `n` consecutive clean entry crossings. -/
def entryBurst (n : Nat) : List CycleInput :=
  (List.range n).flatMap entryTriple

/-- Quiet polls with occupancy held above the threshold. -/
def idlePolls : List CycleInput :=
  [ ⟨13000, true, none, none, false, false⟩,
    ⟨14000, true, none, none, false, false⟩,
    ⟨15000, true, none, none, false, false⟩ ]

/-! ### Claims C2, C5, C6 -/

/-- C2 counterexample: from IDLE at occupancy 5, both sensors firing in the
same poll is not discarded — the pass records one entry event and one exit
event (the code counts an entry, then an exit, in the same pass), and the
transient occupancy of 6 fires the overload alarm, incrementing
`overloadCount` from 0 to 1. -/
theorem ambiguous_crossing_counterexample :
    (loopStep ⟨100, true, none, none, true, true⟩
        { initBusState [] with passengerCount := 5 }).2.entryEvents = 1 ∧
    (loopStep ⟨100, true, none, none, true, true⟩
        { initBusState [] with passengerCount := 5 }).2.exitEvents = 1 ∧
    ({ initBusState [] with passengerCount := 5 } : BusState).overloadCount = 0 ∧
    (loopStep ⟨100, true, none, none, true, true⟩
        { initBusState [] with passengerCount := 5 }).1.overloadCount = 1 := by
  refine ⟨by decide, by decide, by decide, by decide⟩

/-- C2 (amended): if both crossing sensors read fired in the same poll while
no sequence is armed, the pass ends with no sequence armed and occupancy
net-unchanged — but not by discarding the event: the code counts an entry
immediately followed by an exit within the same pass (observable, e.g.,
through the overload latch at occupancy 5). -/
theorem ambiguous_crossing (i : CycleInput) (s : BusState)
    (hEm : (handleEmergencyButton i.now i.buttonHigh s).1.emergencyMode = false)
    (hLine : i.serialLine = none) (hScan : i.rfidScan = none)
    (h1 : i.ir1Low = true) (h2 : i.ir2Low = true)
    (hI1 : s.ir1Triggered = false) (hI2 : s.ir2Triggered = false)
    (hpc : 0 ≤ s.passengerCount) :
    (loopStep i s).1.passengerCount = s.passengerCount ∧
    (loopStep i s).1.ir1Triggered = false ∧
    (loopStep i s).1.ir2Triggered = false ∧
    (loopStep i s).2.entryEvents = 1 ∧
    (loopStep i s).2.exitEvents = 1 := by
  obtain ⟨hf1, hf2, hf3, hf4, hf5, hf6, hf7, hf8, hf9⟩ :=
    handleEmergencyButton_frame i.now i.buttonHigh s
  unfold loopStep
  simp only [hEm, Bool.false_eq_true, if_false, hLine, hScan, h1, h2,
    serialPhase_none, rfidPhase_none]
  obtain ⟨q1, q2, q3, q4, q5⟩ :=
    irPhase_both_low i.now
      (btTimeoutPhase i.now true true (handleEmergencyButton i.now i.buttonHigh s).1
        ⟨(handleEmergencyButton i.now i.buttonHigh s).2, [], [], 0, 0, 0, 0, []⟩).1
      (btTimeoutPhase i.now true true (handleEmergencyButton i.now i.buttonHigh s).1
        ⟨(handleEmergencyButton i.now i.buttonHigh s).2, [], [], 0, 0, 0, 0, []⟩).2
      (by simp [hf3, hI1]) (by simp [hf4, hI2]) (by simp [hf1, hpc])
  refine ⟨?_, ?_, ?_, ?_, ?_⟩ <;>
    simp [q1, q2, q3, q4, q5, hf1, emptyOutput]

/-- C2 witness for the amended statement, at occupancy 3. -/
theorem ambiguous_crossing_witness :
    (loopStep ⟨100, true, none, none, true, true⟩
        { initBusState [] with passengerCount := 3 }).1.passengerCount = 3 ∧
    (loopStep ⟨100, true, none, none, true, true⟩
        { initBusState [] with passengerCount := 3 }).2.entryEvents = 1 ∧
    (loopStep ⟨100, true, none, none, true, true⟩
        { initBusState [] with passengerCount := 3 }).2.exitEvents = 1 := by
  have h := ambiguous_crossing ⟨100, true, none, none, true, true⟩
    { initBusState [] with passengerCount := 3 }
    (by decide) rfl rfl rfl rfl rfl rfl (by decide)
  exact ⟨h.1, h.2.2.2.1, h.2.2.2.2⟩

/-- C5: a validated exit crossing (exit sequence armed, sensor A firing
within the window on an otherwise quiet pass) sets occupancy to
`max (o - 1) 0`, and occupancy is non-negative in every reachable state. -/
theorem occupancy_exit_floor :
    (∀ (i : CycleInput) (s : BusState),
      (handleEmergencyButton i.now i.buttonHigh s).1.emergencyMode = false →
      i.serialLine = none → i.rfidScan = none →
      i.ir1Low = true → i.ir2Low = false →
      s.ir1Triggered = false → s.ir2Triggered = true →
      i.now - s.lastTriggerTime < SEQ_TIMEOUT_MS →
      0 ≤ s.passengerCount →
      (loopStep i s).1.passengerCount = max (s.passengerCount - 1) 0 ∧
      (loopStep i s).2.exitEvents = 1) ∧
    (∀ s : BusState, Reachable s → 0 ≤ s.passengerCount) := by
  constructor
  · intro i s hEm hLine hScan h1 h2 hI1 hI2 hW hpc
    obtain ⟨hf1, hf2, hf3, hf4, hf5, hf6, hf7, hf8, hf9⟩ :=
      handleEmergencyButton_frame i.now i.buttonHigh s
    unfold loopStep
    simp only [hEm, Bool.false_eq_true, if_false, hLine, hScan, h1, h2,
      serialPhase_none, rfidPhase_none]
    obtain ⟨q1, q2, q3, q4, q5⟩ :=
      irPhase_exit i.now
        (btTimeoutPhase i.now true false (handleEmergencyButton i.now i.buttonHigh s).1
          ⟨(handleEmergencyButton i.now i.buttonHigh s).2, [], [], 0, 0, 0, 0, []⟩).1
        (btTimeoutPhase i.now true false (handleEmergencyButton i.now i.buttonHigh s).1
          ⟨(handleEmergencyButton i.now i.buttonHigh s).2, [], [], 0, 0, 0, 0, []⟩).2
        (by simp [hf3, hI1]) (by simp [hf4, hI2])
        (by simp [hf5, hW]) (by simp [hf1, hpc])
    constructor <;> simp [q1, q2, q3, q4, q5, hf1, emptyOutput]
  · intro s h
    induction h with
    | boot e => simp [setup, initBusState]
    | step s i _ ih => exact loopStep_pc_nonneg i s ih

/-- C5 witness: an exit at occupancy 0 stays at 0, and an exit at occupancy
2 yields 1; the boot state is reachable and non-negative. -/
theorem occupancy_exit_floor_witness :
    (loopStep ⟨100, true, none, none, true, false⟩
        { initBusState [] with ir2Triggered := true, lastTriggerTime := 50 }).1.passengerCount
      = 0 ∧
    (loopStep ⟨100, true, none, none, true, false⟩
        { initBusState [] with ir2Triggered := true, lastTriggerTime := 50,
                               passengerCount := 2 }).1.passengerCount = 1 ∧
    0 ≤ (setup ⟨0, 0, []⟩).2.passengerCount := by
  have h1 := (occupancy_exit_floor.1 ⟨100, true, none, none, true, false⟩
    { initBusState [] with ir2Triggered := true, lastTriggerTime := 50 }
    (by decide) rfl rfl rfl rfl rfl rfl (by decide) (by decide)).1
  have h2 := (occupancy_exit_floor.1 ⟨100, true, none, none, true, false⟩
    { initBusState [] with ir2Triggered := true, lastTriggerTime := 50,
                           passengerCount := 2 }
    (by decide) rfl rfl rfl rfl rfl rfl (by decide) (by decide)).1
  have h3 := occupancy_exit_floor.2 _ (Reachable.boot ⟨0, 0, []⟩)
  refine ⟨by rw [h1]; decide, by rw [h2]; decide, h3⟩

/-- C6: the overload alarm is an edge latch — `updateLCD` increments
`overloadCount` exactly when occupancy exceeds 5 with the latch clear, and
sets the latch to the instantaneous threshold test, so repeated passes
above the threshold cannot re-fire it until occupancy drops back to 5 or
below (the latch equals the threshold test in every reachable state); in
the spec's scenario, six consecutive A-then-B entries from occupancy 0 fire
the alarm exactly once, at the sixth entry, leaving `overloadCount` = 1
even across further polls above the threshold. -/
theorem overload_edge_trigger :
    (∀ (now : Nat) (s : BusState),
      (updateLCD now s).overloadCount =
        (if 5 < s.passengerCount ∧ s.isOverloaded = false then s.overloadCount + 1
         else s.overloadCount) ∧
      (updateLCD now s).isOverloaded = decide (5 < s.passengerCount)) ∧
    (∀ s : BusState, Reachable s → latchOK s) ∧
    ((runCycles (entryBurst 5) (initBusState [])).overloadCount = 0 ∧
     (runCycles (entryBurst 5) (initBusState [])).passengerCount = 5 ∧
     (runCycles (entryBurst 6) (initBusState [])).overloadCount = 1 ∧
     (runCycles (entryBurst 6) (initBusState [])).passengerCount = 6 ∧
     (runCycles (entryBurst 6) (initBusState [])).isOverloaded = true ∧
     (runCycles (entryBurst 6 ++ idlePolls) (initBusState [])).overloadCount = 1 ∧
     (runCycles (entryBurst 6 ++ idlePolls) (initBusState [])).passengerCount = 6) := by
  refine ⟨?_, ?_, ?_⟩
  · intro now s
    exact ⟨updateLCD_overloadCount now s, updateLCD_isOverloaded now s⟩
  · intro s h
    induction h with
    | boot e =>
      unfold latchOK
      simp [setup, initBusState]
    | step s i _ ih => exact loopStep_latchOK i s ih
  · refine ⟨by decide, by decide, by decide, by decide, by decide, by decide, by decide⟩

/-- C6 witness: the latch invariant at the boot state (the scenario and
edge-latch parts of the theorem are hypothesis-free). -/
theorem overload_edge_trigger_witness :
    latchOK (setup ⟨0, 0, []⟩).2 ∧
    (updateLCD 0 { initBusState [] with passengerCount := 6 }).overloadCount = 1 := by
  refine ⟨overload_edge_trigger.2.1 _ (Reachable.boot ⟨0, 0, []⟩), ?_⟩
  rw [(overload_edge_trigger.1 0 { initBusState [] with passengerCount := 6 }).1]
  decide

/-! ### Claim C3 -/

/-- C3 counterexample: with the gate open via the card-scan path
(`servoOpen` set, `hasRotated` clear) and no emergency, presenting a
registered token is still evaluated: its `scanCount` changes from 0 to 1
within the pass. -/
theorem scan_while_open_counterexample :
    ({ initBusState [{ uid := [1, 2, 3, 4], name := "HELPER", scanCount := 0 }] with
        servoOpen := true, servoPos := 120 } : BusState).servoOpen = true ∧
    (loopStep ⟨100, true, none, some [1, 2, 3, 4], false, false⟩
        { initBusState [{ uid := [1, 2, 3, 4], name := "HELPER", scanCount := 0 }] with
            servoOpen := true, servoPos := 120 }).1.cards =
      [{ uid := [1, 2, 3, 4], name := "HELPER", scanCount := 1 }] := by
  exact ⟨by decide, by decide⟩

/-- C3 (amended): token evaluation is gated only by the remote-open flag and
emergency mode, not by the gate being physically open.  While emergency
mode is active after button handling the registry is untouched; while a
remote (heartbeat-triggered) open cycle is in progress and its timeout is
still fresh the registry is untouched; but whenever `hasRotated` is clear
and no emergency is active, a presented registered token is evaluated even
if the gate is open from a previous scan: its scan count increments and an
open request is issued. -/
theorem scan_gating (i : CycleInput) (s : BusState) :
    ((handleEmergencyButton i.now i.buttonHigh s).1.emergencyMode = true →
      (loopStep i s).1.cards = s.cards) ∧
    (s.hasRotated = true → i.now - s.lastMessageTime ≤ TIMEOUT_MS →
      (loopStep i s).1.cards = s.cards) ∧
    (∀ (uid : List Nat) (idx : Nat) (c : RegisteredCard),
      (handleEmergencyButton i.now i.buttonHigh s).1.emergencyMode = false →
      i.serialLine = none → s.hasRotated = false →
      i.rfidScan = some uid →
      findCardIndex s.cards uid = some idx → s.cards[idx]? = some c →
      (loopStep i s).1.cards = bumpScan s.cards idx ∧
      (loopStep i s).1.servoOpen = true ∧
      (loopStep i s).1.servoPos = 120) := by
  obtain ⟨hf1, hf2, hf3, hf4, hf5, hf6, hf7, hf8, hf9⟩ :=
    handleEmergencyButton_frame i.now i.buttonHigh s
  refine ⟨?_, ?_, ?_⟩
  · intro hEm
    rw [loopStep_emergency i s hEm]
    exact hf2
  · intro hRot hFresh
    unfold loopStep
    by_cases hEm : (handleEmergencyButton i.now i.buttonHigh s).1.emergencyMode = true
    · simp [hEm, hf2]
    · simp only [Bool.not_eq_true] at hEm
      simp only [hEm, Bool.false_eq_true, if_false]
      simp only [checkAndCloseServo_cards, buzzerPhase_cards, irPhase_cards]
      cases hLine : i.serialLine with
      | none =>
        rw [serialPhase_none]
        rw [btTimeoutPhase_fresh i.now i.ir1Low i.ir2Low _ _
          (by rw [hf9]; omega)]
        rw [rfidPhase_rotated i.now i.rfidScan _ _ (by rw [hf6]; exact hRot)]
        exact hf2
      | some msg =>
        rw [serialPhase_rotated i.now msg _ _ (by rw [hf6]; exact hRot)]
        rw [btTimeoutPhase_fresh i.now i.ir1Low i.ir2Low _ _ (by simp)]
        rw [rfidPhase_rotated i.now i.rfidScan _ _ (by simp [hf6, hRot])]
        exact hf2
  · intro uid idx c hEm hLine hRot hScan hFind hGet
    unfold loopStep
    simp only [hEm, Bool.false_eq_true, if_false, hLine, hScan, serialPhase_none]
    rw [btTimeoutPhase_notRotated i.now i.ir1Low i.ir2Low _ _ (by rw [hf6]; exact hRot)]
    rw [rfidPhase_grant i.now uid idx c _ _ (by rw [hf6]; exact hRot)
      (by rw [hf2]; exact hFind) (by rw [hf2]; exact hGet)]
    rw [checkAndCloseServo_fresh i.now i.ir1Low i.ir2Low _ _ (by simp)]
    refine ⟨?_, ?_, ?_⟩ <;> simp [hf2]

/-- C3 witness for the amended statement: during a remote open cycle a scan
leaves the registry unchanged; with `hasRotated` clear a scan of the
registered token is granted. -/
theorem scan_gating_witness :
    (loopStep ⟨100, true, none, some [1, 2, 3, 4], false, false⟩
        { initBusState [{ uid := [1, 2, 3, 4], name := "HELPER", scanCount := 0 }] with
            hasRotated := true, servoPos := 120, lastMessageTime := 50 }).1.cards =
      [{ uid := [1, 2, 3, 4], name := "HELPER", scanCount := 0 }] ∧
    (loopStep ⟨100, true, none, some [1, 2, 3, 4], false, false⟩
        (initBusState
          [{ uid := [1, 2, 3, 4], name := "HELPER", scanCount := 0 }])).1.cards =
      [{ uid := [1, 2, 3, 4], name := "HELPER", scanCount := 1 }] ∧
    (loopStep ⟨100, true, none, some [1, 2, 3, 4], false, false⟩
        (initBusState
          [{ uid := [1, 2, 3, 4], name := "HELPER", scanCount := 0 }])).1.servoOpen =
      true := by
  have h1 := (scan_gating ⟨100, true, none, some [1, 2, 3, 4], false, false⟩
    { initBusState [{ uid := [1, 2, 3, 4], name := "HELPER", scanCount := 0 }] with
        hasRotated := true, servoPos := 120, lastMessageTime := 50 }).2.1
    rfl (by decide)
  have h2 := (scan_gating ⟨100, true, none, some [1, 2, 3, 4], false, false⟩
    (initBusState [{ uid := [1, 2, 3, 4], name := "HELPER", scanCount := 0 }])).2.2
    [1, 2, 3, 4] 0 { uid := [1, 2, 3, 4], name := "HELPER", scanCount := 0 }
    (by decide) rfl rfl rfl (by decide) (by decide)
  exact ⟨by rw [h1]; rfl, by rw [h2.1]; decide, h2.2.1⟩

/-! ### Claim C4 -/

lemma serialPhase_servoPos_open (now : Nat) (line : Option String)
    (s : BusState) (o : CycleOutput) (h : s.servoPos = 120) :
    (serialPhase now line s o).1.servoPos = 120 := by
  rcases serialPhase_servoPos_or now line s o with h' | h' <;> rw [h']
  exact h

lemma btTimeoutPhase_servoPos_blocked (now : Nat) (r1 r2 : Bool)
    (s : BusState) (o : CycleOutput) (hS : r1 = true ∨ r2 = true)
    (h : s.servoPos = 120) :
    (btTimeoutPhase now r1 r2 s o).1.servoPos = 120 := by
  rw [(btTimeoutPhase_blocked now r1 r2 s o hS).1]
  exact h

lemma rfidPhase_servoPos_open (now : Nat) (scan : Option (List Nat))
    (s : BusState) (o : CycleOutput) (h : s.servoPos = 120) :
    (rfidPhase now scan s o).1.servoPos = 120 := by
  rcases rfidPhase_servoPos_or now scan s o with h' | h' <;> rw [h']
  exact h

lemma checkAndCloseServo_servoPos_blocked (now : Nat) (r1 r2 : Bool)
    (s : BusState) (o : CycleOutput) (hS : r1 = true ∨ r2 = true)
    (h : s.servoPos = 120) :
    (checkAndCloseServo now r1 r2 s o).1.servoPos = 120 := by
  rw [(checkAndCloseServo_blocked now r1 r2 s o hS).1]
  exact h

/-- C4 counterexample: on the remote-open close path the obstruction hold
does not re-arm the timeout.  With `hasRotated` set, the timeout long
elapsed and sensor 1 interrupted, the pass keeps the gate open and reports
the obstruction, but `lastMessageTime` stays 0 instead of being re-armed to
the current time 20000. -/
theorem bt_close_no_rearm_counterexample :
    (loopStep ⟨20000, true, none, none, true, false⟩
        { initBusState [] with hasRotated := true, servoPos := 120,
                               lastMessageTime := 0 }).1.servoPos = 120 ∧
    (loopStep ⟨20000, true, none, none, true, false⟩
        { initBusState [] with hasRotated := true, servoPos := 120,
                               lastMessageTime := 0 }).2.blockedReports = 1 ∧
    (loopStep ⟨20000, true, none, none, true, false⟩
        { initBusState [] with hasRotated := true, servoPos := 120,
                               lastMessageTime := 0 }).1.lastMessageTime = 0 ∧
    (0 : Nat) ≠ 20000 := by
  refine ⟨by decide, by decide, by decide, by decide⟩

/-- C4 (amended): in any pass where either crossing sensor reads
non-clear, an open gate stays open (no OPEN→CLOSED transition on either
close path, for any timeout state); on the card-scan close path
(`checkAndCloseServo`) an obstruction after the elapsed timeout
additionally reports the blocked gate and re-arms the timeout reference —
the remote-open close path reports but does not re-arm. -/
theorem gate_obstruction_safety :
    (∀ (i : CycleInput) (s : BusState),
      (i.ir1Low = true ∨ i.ir2Low = true) → s.servoPos = 120 →
      (loopStep i s).1.servoPos = 120) ∧
    (∀ (now : Nat) (r1 r2 : Bool) (s : BusState) (o : CycleOutput),
      s.servoOpen = true →
      TIMEOUT_MS + GATE_BLOCK_CHECK_DELAY_MS < now - s.lastMessageTime →
      (r1 = true ∨ r2 = true) →
      checkAndCloseServo now r1 r2 s o =
        ({ s with lastMessageTime := now },
         { o with blockedReports := o.blockedReports + 1 })) := by
  constructor
  · intro i s hS hOpen
    obtain ⟨hf1, hf2, hf3, hf4, hf5, hf6, hf7, hf8, hf9⟩ :=
      handleEmergencyButton_frame i.now i.buttonHigh s
    unfold loopStep
    by_cases hEm : (handleEmergencyButton i.now i.buttonHigh s).1.emergencyMode = true
    · simp [hEm, hf8, hOpen]
    · simp only [Bool.not_eq_true] at hEm
      simp only [hEm, Bool.false_eq_true, if_false]
      apply checkAndCloseServo_servoPos_blocked _ _ _ _ _ hS
      rw [buzzerPhase_servoPos, irPhase_servoPos]
      apply rfidPhase_servoPos_open
      apply btTimeoutPhase_servoPos_blocked _ _ _ _ _ hS
      apply serialPhase_servoPos_open
      rw [hf8]
      exact hOpen
  · intro now r1 r2 s o hOpen hStale hS
    exact checkAndCloseServo_rearm now r1 r2 s o hOpen hStale
      (by rcases hS with h | h <;> simp [h])

/-- C4 witness: the safety part at a concrete open state with sensor 2
interrupted, and the re-arm part of the scan-path close at concrete
values. -/
theorem gate_obstruction_safety_witness :
    (loopStep ⟨50000, true, none, none, false, true⟩
        { initBusState [] with servoOpen := true, servoPos := 120,
                               lastMessageTime := 0 }).1.servoPos = 120 ∧
    checkAndCloseServo 20000 true false
        { initBusState [] with servoOpen := true, servoPos := 120,
                               lastMessageTime := 0 } emptyOutput =
      ({ initBusState [] with servoOpen := true, servoPos := 120,
                              lastMessageTime := 20000 },
       { emptyOutput with blockedReports := 1 }) := by
  constructor
  · exact gate_obstruction_safety.1 ⟨50000, true, none, none, false, true⟩
      { initBusState [] with servoOpen := true, servoPos := 120, lastMessageTime := 0 }
      (Or.inr rfl) rfl
  · have h := gate_obstruction_safety.2 20000 true false
      { initBusState [] with servoOpen := true, servoPos := 120, lastMessageTime := 0 }
      emptyOutput rfl (by decide) (Or.inl rfl)
    rw [h]
    decide

/-! ### Claim C8 -/

lemma irEntry_settleDelays_mem (now : Nat) (r2 : Bool) (s : BusState) (o : CycleOutput)
    (x : Nat) (hx : x ∈ (irEntry now r2 s o).2.settleDelays) :
    x ∈ o.settleDelays ∨ x = IR_DEBOUNCE_MS := by
  unfold irEntry at hx
  split at hx
  · simp at hx
    rcases hx with h | h
    · exact Or.inl h
    · exact Or.inr h
  · exact Or.inl hx

lemma irExit_settleDelays_mem (now : Nat) (r1 : Bool) (s : BusState) (o : CycleOutput)
    (x : Nat) (hx : x ∈ (irExit now r1 s o).2.settleDelays) :
    x ∈ o.settleDelays ∨ x = IR_DEBOUNCE_MS := by
  unfold irExit at hx
  split at hx
  · simp at hx
    rcases hx with h | h
    · exact Or.inl h
    · exact Or.inr h
  · exact Or.inl hx

lemma irPhase_settleDelays_mem (now : Nat) (r1 r2 : Bool) (s : BusState) (o : CycleOutput)
    (x : Nat) (hx : x ∈ (irPhase now r1 r2 s o).2.settleDelays) :
    x ∈ o.settleDelays ∨ x = IR_DEBOUNCE_MS := by
  unfold irPhase at hx
  rcases irExit_settleDelays_mem now r1 _ _ x hx with h | h
  · exact irEntry_settleDelays_mem now r2 _ _ x h
  · exact Or.inr h

lemma irPhase_settleDelays_head (now : Nat) (r1 r2 : Bool) (s : BusState)
    (o : CycleOutput) (a : Nat) (l : List Nat) (h : o.settleDelays = a :: l) :
    (irPhase now r1 r2 s o).2.settleDelays.head? = some a := by
  obtain ⟨t, ht⟩ := irPhase_settleDelays_append now r1 r2 s o
  rw [ht, h]
  rfl

/-- C8 counterexample: a heartbeat received while the gate is open via the
card-scan path (`servoOpen` set, `hasRotated` clear) still begins a new
arrival sequence — `hasRotated` is set and a snapshot line is sent — so the
claim's "by either open path" fails. -/
theorem heartbeat_during_scan_open_counterexample :
    ({ initBusState [] with servoOpen := true, servoPos := 120 } : BusState).servoOpen
      = true ∧
    (loopStep ⟨100, true, some "Hello from Master", none, false, false⟩
        { initBusState [] with servoOpen := true, servoPos := 120 }).1.hasRotated
      = true ∧
    (loopStep ⟨100, true, some "Hello from Master", none, false, false⟩
        { initBusState [] with servoOpen := true, servoPos := 120 }).2.adminLines.length
      = 1 := by
  refine ⟨by decide, by decide, by decide⟩

/-- C8 (amended): a heartbeat line received while no remote open cycle is in
progress (`hasRotated` clear — even if the gate is open from a card scan)
waits the fixed settle delay, opens the gate, sets the remote-open flag and
transmits exactly one snapshot line; a line received while `hasRotated` is
set does not begin a new arrival sequence: no snapshot line is transmitted
and no settle delay is issued (only the 50 ms sensor debounce delays can
occur). -/
theorem heartbeat_arrival :
    (∀ (i : CycleInput) (s : BusState) (msg : String),
      (handleEmergencyButton i.now i.buttonHigh s).1.emergencyMode = false →
      i.serialLine = some msg → containsHeartbeat msg = true → s.hasRotated = false →
      (loopStep i s).1.hasRotated = true ∧
      (loopStep i s).1.servoPos = 120 ∧
      (loopStep i s).2.adminLines.length = 1 ∧
      (loopStep i s).2.settleDelays.head? = some 6000) ∧
    (∀ (i : CycleInput) (s : BusState) (msg : String),
      (handleEmergencyButton i.now i.buttonHigh s).1.emergencyMode = false →
      i.serialLine = some msg → s.hasRotated = true →
      (loopStep i s).2.adminLines = [] ∧
      ∀ x ∈ (loopStep i s).2.settleDelays, x = IR_DEBOUNCE_MS) := by
  constructor
  · intro i s msg hEm hLine hHB hRot
    obtain ⟨hf1, hf2, hf3, hf4, hf5, hf6, hf7, hf8, hf9⟩ :=
      handleEmergencyButton_frame i.now i.buttonHigh s
    unfold loopStep
    simp only [hEm, Bool.false_eq_true, if_false, hLine]
    rw [serialPhase_heartbeat i.now msg _ _ (by rw [hf6]; exact hRot) hHB]
    rw [btTimeoutPhase_fresh i.now i.ir1Low i.ir2Low _ _ (by simp)]
    rw [rfidPhase_rotated i.now i.rfidScan _ _ (by simp)]
    rw [checkAndCloseServo_fresh i.now i.ir1Low i.ir2Low _ _ (by simp)]
    refine ⟨by simp, by simp, by simp [emptyOutput], ?_⟩
    simp only [buzzerPhase_output]
    exact irPhase_settleDelays_head i.now i.ir1Low i.ir2Low _ _ 6000 []
      (by simp [emptyOutput])
  · intro i s msg hEm hLine hRot
    obtain ⟨hf1, hf2, hf3, hf4, hf5, hf6, hf7, hf8, hf9⟩ :=
      handleEmergencyButton_frame i.now i.buttonHigh s
    unfold loopStep
    simp only [hEm, Bool.false_eq_true, if_false, hLine]
    rw [serialPhase_rotated i.now msg _ _ (by rw [hf6]; exact hRot)]
    rw [btTimeoutPhase_fresh i.now i.ir1Low i.ir2Low _ _ (by simp)]
    rw [rfidPhase_rotated i.now i.rfidScan _ _ (by simp [hf6, hRot])]
    constructor
    · simp [emptyOutput]
    · intro x hx
      simp only [checkAndCloseServo_settleDelays, buzzerPhase_output] at hx
      have hmem := irPhase_settleDelays_mem i.now i.ir1Low i.ir2Low _ _ x hx
      rcases hmem with h | h
      · simp [emptyOutput] at h
      · exact h

/-- C8 witness: a heartbeat at the boot state opens the gate with one
snapshot line and a leading 6000 ms settle delay; the same line during a
remote open cycle produces no snapshot line. -/
theorem heartbeat_arrival_witness :
    (loopStep ⟨100, true, some "Hello from Master", none, false, false⟩
        (initBusState [])).1.hasRotated = true ∧
    (loopStep ⟨100, true, some "Hello from Master", none, false, false⟩
        (initBusState [])).2.adminLines.length = 1 ∧
    (loopStep ⟨100, true, some "Hello from Master", none, false, false⟩
        (initBusState [])).2.settleDelays.head? = some 6000 ∧
    (loopStep ⟨100, true, some "Hello from Master", none, false, false⟩
        { initBusState [] with hasRotated := true, servoPos := 120,
                               lastMessageTime := 50 }).2.adminLines = [] := by
  have h1 := heartbeat_arrival.1 ⟨100, true, some "Hello from Master", none, false, false⟩
    (initBusState []) "Hello from Master" (by decide) rfl (by decide) rfl
  have h2 := heartbeat_arrival.2 ⟨100, true, some "Hello from Master", none, false, false⟩
    { initBusState [] with hasRotated := true, servoPos := 120, lastMessageTime := 50 }
    "Hello from Master" (by decide) rfl rfl
  exact ⟨h1.1, h1.2.2.1, h1.2.2.2, h2.1⟩

/-! ### Claim C10 -/

/-- A quiet pass of the emergency handler: button high, mode inactive. -/
lemma handleEmergencyButton_quiet (now : Nat) (s : BusState)
    (hM : s.emergencyMode = false) :
    handleEmergencyButton now true s = ({ s with lastButtonState := true }, false) := by
  unfold handleEmergencyButton
  simp [hM]

lemma rfidPhase_lastMessageTime_now (now : Nat) (scan : Option (List Nat))
    (s : BusState) (o : CycleOutput) (h : s.lastMessageTime = now) :
    (rfidPhase now scan s o).1.lastMessageTime = now := by
  unfold rfidPhase activateServo
  split
  · exact h
  · cases scan with
    | none => exact h
    | some uid =>
      cases h1 : findCardIndex s.cards uid with
      | none =>
        simp only [h1]
        exact h
      | some idx =>
        cases h2 : s.cards[idx]? with
        | none =>
          simp only [h1, h2]
          exact h
        | some c => simp [h1, h2]

lemma checkAndCloseServo_lastMessageTime_now (now : Nat) (r1 r2 : Bool)
    (s : BusState) (o : CycleOutput) (h : s.lastMessageTime = now) :
    (checkAndCloseServo now r1 r2 s o).1.lastMessageTime = now := by
  unfold checkAndCloseServo
  split
  · split
    · split
      · simpa using h
      · simp
    · exact h
  · exact h

/-- One keep-alive pass: with the remote-open flag set, the gate open, no
emergency and either a line arriving this pass or the timeout still fresh,
the gate stays open and the timeout reference is the receipt time of the
latest line. -/
lemma loopStep_keepalive (i : CycleInput) (s : BusState)
    (hEm : s.emergencyMode = false) (hBtn : i.buttonHigh = true)
    (hRot : s.hasRotated = true) (hPos : s.servoPos = 120)
    (hCond : i.serialLine.isSome = true ∨ i.now - s.lastMessageTime ≤ TIMEOUT_MS) :
    (loopStep i s).1.hasRotated = true ∧
    (loopStep i s).1.servoPos = 120 ∧
    (loopStep i s).1.emergencyMode = false ∧
    (loopStep i s).1.lastMessageTime =
      (if i.serialLine.isSome then i.now else s.lastMessageTime) := by
  unfold loopStep
  rw [hBtn, handleEmergencyButton_quiet i.now s hEm]
  dsimp only
  simp only [hEm, Bool.false_eq_true, if_false]
  cases hLine : i.serialLine with
  | none =>
    have hFresh : i.now - s.lastMessageTime ≤ TIMEOUT_MS := by
      rcases hCond with h | h
      · rw [hLine] at h
        simp at h
      · exact h
    rw [serialPhase_none]
    rw [btTimeoutPhase_fresh i.now i.ir1Low i.ir2Low _ _
      (by show ¬ (TIMEOUT_MS < i.now - s.lastMessageTime); omega)]
    rw [rfidPhase_rotated i.now i.rfidScan _ _ (by exact hRot)]
    rw [checkAndCloseServo_fresh i.now i.ir1Low i.ir2Low _ _
      (by simp only [buzzerPhase_lastMessageTime, irPhase_lastMessageTime]
          show ¬ (TIMEOUT_MS + GATE_BLOCK_CHECK_DELAY_MS < i.now - s.lastMessageTime)
          omega)]
    exact ⟨by simp [hRot], by simp [hPos], by simp [hEm], by simp⟩
  | some msg =>
    rw [serialPhase_rotated i.now msg _ _ (by exact hRot)]
    rw [btTimeoutPhase_fresh i.now i.ir1Low i.ir2Low _ _ (by simp)]
    rw [rfidPhase_rotated i.now i.rfidScan _ _ (by simp [hRot])]
    rw [checkAndCloseServo_fresh i.now i.ir1Low i.ir2Low _ _ (by simp)]
    exact ⟨by simp [hRot], by simp [hPos], by simp [hEm], by simp⟩

/-- A trace along which, whenever a pass begins, either a line arrives in
that pass or at most `TIMEOUT_MS` has passed since the latest line (`t`
tracks the receipt time of the latest line); the clock is monotone and the
panic button stays unpressed. -/
def keptAlive : Nat → List CycleInput → Prop
  | _, [] => True
  | t, i :: rest =>
      t ≤ i.now ∧ i.buttonHigh = true ∧
      (i.serialLine.isSome = true ∨ i.now - t ≤ TIMEOUT_MS) ∧
      keptAlive (if i.serialLine.isSome then i.now else t) rest

/-- C10: receipt of any serial line — heartbeat or not — resets the
gate-close timeout reference to the current time; consequently, along any
trace that stays within 10 s of the latest received line (and free of panic
presses), a gate opened by the remote path never closes, regardless of line
content. -/
theorem serial_keepalive :
    (∀ (i : CycleInput) (s : BusState) (msg : String),
      (handleEmergencyButton i.now i.buttonHigh s).1.emergencyMode = false →
      i.serialLine = some msg →
      (loopStep i s).1.lastMessageTime = i.now) ∧
    (∀ (inputs : List CycleInput) (s : BusState) (t : Nat),
      s.hasRotated = true → s.servoPos = 120 → s.emergencyMode = false →
      t ≤ s.lastMessageTime → keptAlive t inputs →
      (runCycles inputs s).hasRotated = true ∧
      (runCycles inputs s).servoPos = 120) := by
  constructor
  · intro i s msg hEm hLine
    unfold loopStep
    simp only [hEm, Bool.false_eq_true, if_false, hLine]
    apply checkAndCloseServo_lastMessageTime_now
    simp only [buzzerPhase_lastMessageTime, irPhase_lastMessageTime]
    apply rfidPhase_lastMessageTime_now
    simp only [btTimeoutPhase_lastMessageTime]
    exact serialPhase_some_lastMessageTime i.now msg _ _
  · intro inputs
    induction inputs with
    | nil =>
      intro s t hRot hPos _ _ _
      exact ⟨hRot, hPos⟩
    | cons i rest ih =>
      intro s t hRot hPos hEm hT hAlive
      obtain ⟨hMono, hBtn, hCond, hRest⟩ := hAlive
      have hCond' : i.serialLine.isSome = true ∨ i.now - s.lastMessageTime ≤ TIMEOUT_MS := by
        rcases hCond with h | h
        · exact Or.inl h
        · right
          omega
      obtain ⟨k1, k2, k3, k4⟩ := loopStep_keepalive i s hEm hBtn hRot hPos hCond'
      have hT' : (if i.serialLine.isSome then i.now else t) ≤
          (loopStep i s).1.lastMessageTime := by
        rw [k4]
        by_cases hSome : i.serialLine.isSome = true
        · simp [hSome]
        · simp only [Bool.not_eq_true] at hSome
          simp [hSome]
          omega
      exact ih (loopStep i s).1 (if i.serialLine.isSome then i.now else t)
        k1 k2 k3 hT' hRest

/-- C10 witness: a non-heartbeat line (`PING`) resets the timeout reference,
and a two-pass trace — a line at 5000 ms and silence until 12000 ms — keeps
the remotely opened gate open. -/
theorem serial_keepalive_witness :
    (loopStep ⟨100, true, some "PING", none, false, false⟩
        { initBusState [] with hasRotated := true, servoPos := 120 }).1.lastMessageTime
      = 100 ∧
    (runCycles
        [⟨5000, true, some "PING", none, false, false⟩,
         ⟨12000, true, none, none, false, false⟩]
        { initBusState [] with hasRotated := true, servoPos := 120 }).hasRotated
      = true ∧
    (runCycles
        [⟨5000, true, some "PING", none, false, false⟩,
         ⟨12000, true, none, none, false, false⟩]
        { initBusState [] with hasRotated := true, servoPos := 120 }).servoPos
      = 120 := by
  have h1 := serial_keepalive.1 ⟨100, true, some "PING", none, false, false⟩
    { initBusState [] with hasRotated := true, servoPos := 120 } "PING" (by decide) rfl
  have h2 := serial_keepalive.2
    [⟨5000, true, some "PING", none, false, false⟩,
     ⟨12000, true, none, none, false, false⟩]
    { initBusState [] with hasRotated := true, servoPos := 120 } 0
    rfl rfl rfl (by decide)
    ⟨by decide, rfl, Or.inl rfl, by decide, rfl, Or.inr (by decide), trivial⟩
  exact ⟨h1, h2.1, h2.2⟩

end BusSlave
